import Mathlib

/-!
Shallow embedding of the conversational inference pipeline of the
rhcp-chatbot repository, and proofs about it.

Conventions used throughout this development:

* Python strings are modelled as `List Char`.  The texts the pipeline
  manipulates are ASCII; on that repertoire Python's `str.lower` agrees with
  `Char.toLower`, Unicode NFD decomposition is the identity and there are no
  combining marks, so the diacritic-folding step of `_normalize_span`
  (`unicodedata.normalize('NFD', s)` followed by dropping combining
  characters) is modelled as the identity.
* Python floats (classifier probabilities, confidences) are modelled as `ℚ`.
  Rational constants are written with `mkRat` so that they evaluate.
* `datetime.now()` is modelled by threading an explicit integer time
  parameter `now` through the operations; `timedelta(hours = h)` is the
  integer `h` on the same axis, so the unit of the time axis is one hour.
* Python dicts with a statically known key set are modelled as structures;
  keys that are created on demand are `Option`-valued fields; Python `set`
  objects are modelled as duplicate-free lists (insertion adds at the end
  when the element is not yet present); dicts used as maps are association
  lists whose update replaces an existing binding in place.
* `random.choice` (used by `_generate_basic_response`) and the trained
  scikit-learn classifier are external effects; they are modelled as
  function-valued fields (`choose`, `classifier`) of the processor.
-/

/-- Converts a Lean string literal to the `List Char` representation used for
Python strings in this development. -/
def str (s : String) : List Char := s.toList

/-- Characters matched by Python's `str.split()` / `str.strip()` and by the
regex class `\s` (space, tab, newline, carriage return, vertical tab, form
feed). -/
def is_py_space (c : Char) : Bool :=
  c == ' ' || c == '\t' || c == '\n' || c == '\r' ||
  c == Char.ofNat 11 || c == Char.ofNat 12

/-- Characters matched by the regex class `\w` on the ASCII repertoire
modelled here: letters, digits and underscore. -/
def word_char (c : Char) : Bool :=
  c.isAlphanum || c == '_'

/-- Python `s.lower()` on the ASCII repertoire modelled here. -/
def py_lower (s : List Char) : List Char := s.map Char.toLower

/-- Python `s.strip()`: removes leading and trailing whitespace. -/
def py_strip (s : List Char) : List Char :=
  ((s.dropWhile is_py_space).reverse.dropWhile is_py_space).reverse

/-- Helper for `collapse_ws`; the boolean records whether the previous kept
character position was inside a whitespace run. -/
def collapse_ws_aux : List Char → Bool → List Char
  | [], _ => []
  | c :: rest, in_run =>
    if is_py_space c then
      if in_run then collapse_ws_aux rest true
      else ' ' :: collapse_ws_aux rest true
    else c :: collapse_ws_aux rest false

/-- Python `re.sub(r"\s+", " ", s)`: every maximal whitespace run becomes a
single space. -/
def collapse_ws (s : List Char) : List Char := collapse_ws_aux s false

/-- Python `needle in hay` on strings: substring containment. -/
def py_in (needle hay : List Char) : Bool :=
  (List.range (hay.length + 1)).any (fun i => needle.isPrefixOf (hay.drop i))

/-- Helper for `py_replace`; structural recursion on a fuel argument so that
the definition evaluates inside the kernel.  Each step consumes at least one
character of the text while the fuel drops by exactly one, so fuel equal to
the length of the text never runs out; the fuel-exhausted branch is
unreachable for the non-empty patterns the source uses. -/
def py_replace_aux (pat rep : List Char) : Nat → List Char → List Char
  | 0, s => s
  | _ + 1, [] => []
  | fuel + 1, c :: rest =>
    if pat ≠ [] ∧ pat.isPrefixOf (c :: rest) then
      rep ++ py_replace_aux pat rep fuel ((c :: rest).drop pat.length)
    else
      c :: py_replace_aux pat rep fuel rest

/-- Python `s.replace(pat, rep)`: left-to-right, non-overlapping replacement.
All patterns used by the source are non-empty, so the behaviour of Python on
an empty pattern (interspersing) is never exercised. -/
def py_replace (pat rep s : List Char) : List Char :=
  py_replace_aux pat rep s.length s

/-- Python `s.split()`: split on whitespace runs, dropping empty pieces.  The
accumulator holds the current word reversed. -/
def py_split_ws_aux : List Char → List Char → List (List Char)
  | [], acc => if acc = [] then [] else [acc.reverse]
  | c :: rest, acc =>
    if is_py_space c then
      if acc = [] then py_split_ws_aux rest []
      else acc.reverse :: py_split_ws_aux rest []
    else py_split_ws_aux rest (c :: acc)

/-- Python `s.split()` (no separator argument). -/
def py_split_ws (s : List Char) : List (List Char) := py_split_ws_aux s []

/-- Python `l[-n:]` for `n > 0`: the last `n` elements.  For `n = 0` Python
yields the whole list (`l[-0:] = l[0:]`), which the guard reproduces. -/
def py_slice_last {α : Type} (l : List α) (n : Nat) : List α :=
  if n = 0 then l else l.drop (l.length - n)

/-- Python `", ".join(parts)` and friends. -/
def py_join (sep : List Char) (parts : List (List Char)) : List Char :=
  List.intercalate sep parts

/-- Python `d.get(key, default)` on an `Option`-modelled key (a local
re-statement of `opt_getD Option`, kept separate so that every definition of
this file compiles to executable code). -/
def opt_getD {α : Type} (o : Option α) (d : α) : α :=
  match o with
  | some x => x
  | none => d

/-- Truthiness of an optional Python string: `None` and `""` are falsy. -/
def py_truthy : Option (List Char) → Bool
  | none => false
  | some s => s ≠ []

/-- Python `d[k]` / `k in d` lookup on an association-list dict. -/
def dict_lookup {V : Type} (l : List (List Char × V)) (k : List Char) : Option V :=
  match l with
  | [] => none
  | p :: t => if p.1 = k then some p.2 else dict_lookup t k

/-- Python `d[k] = v` on an association list used as a dict: replace the
binding in place when the key is present, append it otherwise. -/
def dict_set {V : Type} (d : List (List Char × V)) (k : List Char) (v : V) :
    List (List Char × V) :=
  if d.any (fun p => p.1 == k) then
    d.map (fun p => if p.1 == k then (p.1, v) else p)
  else d ++ [(k, v)]

/-- Python `s.add(x)` on a set modelled as a duplicate-free list. -/
def pyset_add (s : List (List Char)) (x : List Char) : List (List Char) :=
  if x ∈ s then s else s ++ [x]

/-! ## Knowledge resolver (`app/knowledge/resolver.py`) -/

/-- One knowledge-base record (`KnowledgeEntry` of the spec): the fields that
take part in resolution (`canonical`, `aliases`) plus the display name
(`name` for members, `title` for albums and songs); the remaining typed
fields do not influence any resolver decision and are omitted. -/
structure KBEntry where
  canonical : List Char
  aliases : List (List Char)
  name : List Char
deriving DecidableEq, Repr

/-- Embedding of `KnowledgeResolver._normalize_span`: lowercase and strip,
diacritic-fold (the identity on the ASCII repertoire modelled here, see the
module comment), collapse whitespace runs to single spaces, then delete
every character that is neither `\w` nor `\s`.  `None` and `""` are both
mapped to `""`. -/
def normalize_span (span : List Char) : List Char :=
  if span = [] then []
  else
    let lowered := py_strip (py_lower span)
    let collapsed := collapse_ws lowered
    collapsed.filter (fun c => word_char c || is_py_space c)

/-- The adjacent-character swap `span[:i] + span[i+1] + span[i] + span[i+2:]`
from `_calculate_similarity` (only evaluated for `i + 1 < span.length`). -/
def adjacent_swap_at (s : List Char) (i : Nat) : List Char :=
  s.take i ++ [s.getD (i + 1) ' ', s.getD i ' '] ++ s.drop (i + 2)

/-- The transposition scan of `_calculate_similarity`: some single adjacent
swap of `s` yields `t`. -/
def has_adjacent_transposition (s t : List Char) : Bool :=
  (List.range (s.length - 1)).any (fun i => adjacent_swap_at s i == t)

/-- The phonetic substitution table of `_calculate_similarity`, in source
order. -/
def phonetic_patterns : List (List Char × List Char) :=
  [(str "f", str "ph"), (str "c", str "k"), (str "s", str "z"),
   (str "x", str "ks"), (str "qu", str "kw"), (str "tion", str "shun"),
   (str "sion", str "zhun")]

/-- Sequential application of the phonetic substitutions to one string. -/
def apply_phonetic (s : List Char) : List Char :=
  phonetic_patterns.foldl (fun acc p => py_replace p.1 p.2 acc) s

/-- Number of positions at which two equal-length strings differ
(`sum(1 for a, b in zip(s, t) if a != b)`). -/
def diff_count (s t : List Char) : Nat :=
  (s.zip t).countP (fun p => p.1 ≠ p.2)

/-- The single-deletion scan of `_calculate_similarity`: removing one
character of `longer` yields `shorter`. -/
def delete_one_eq (longer shorter : List Char) : Bool :=
  (List.range longer.length).any (fun i => longer.eraseIdx i == shorter)

/-- Embedding of `KnowledgeResolver._calculate_similarity`.  The guard order
is exactly that of the source: empty input, exact, containment,
adjacent transposition (equal lengths, length at least 3), phonetic
equality, one or two substitutions at equal length, containment or single
insertion/deletion at lengths differing by one, and 0.0 otherwise. -/
def _calculate_similarity (span target : List Char) : ℚ :=
  if span = [] ∨ target = [] then 0
  else
    let span_norm := normalize_span span
    let target_norm := normalize_span target
    if span_norm = target_norm then 1
    else if py_in span_norm target_norm || py_in target_norm span_norm then
      mkRat 4 5
    else if span_norm.length = target_norm.length ∧ 3 ≤ span_norm.length ∧
        has_adjacent_transposition span_norm target_norm then
      mkRat 3 5
    else if apply_phonetic span_norm = apply_phonetic target_norm then
      mkRat 3 5
    else if span_norm.length = target_norm.length ∧
        diff_count span_norm target_norm = 1 then
      mkRat 7 10
    else if span_norm.length = target_norm.length ∧
        diff_count span_norm target_norm = 2 then
      mkRat 1 2
    else if max span_norm.length target_norm.length -
        min span_norm.length target_norm.length = 1 then
      if py_in span_norm target_norm || py_in target_norm span_norm then
        mkRat 3 5
      else
        let shorter :=
          if span_norm.length < target_norm.length then span_norm
          else target_norm
        let longer :=
          if span_norm.length < target_norm.length then target_norm
          else span_norm
        if delete_one_eq longer shorter then mkRat 7 10 else 0
    else 0

/-- The alias scan of the fuzzy-matching loop body: replace the running best
when the alias scores strictly higher. -/
def fuzzy_alias_step (e : KBEntry) (normalized_span : List Char)
    (acc2 : Option KBEntry × ℚ) (a : List Char) : Option KBEntry × ℚ :=
  let ascore := _calculate_similarity normalized_span (normalize_span a)
  if ascore > acc2.2 then (some e, ascore) else acc2

/-- The per-entry body of the fuzzy-matching loop: score the canonical name
first, then every alias. -/
def fuzzy_entry_step (normalized_span : List Char) (acc : Option KBEntry × ℚ)
    (e : KBEntry) : Option KBEntry × ℚ :=
  let cscore := _calculate_similarity normalized_span (normalize_span e.canonical)
  let acc1 := if cscore > acc.2 then (some e, cscore) else acc
  e.aliases.foldl (fuzzy_alias_step e normalized_span) acc1

/-- The fuzzy-matching pass shared by `resolve_member` / `resolve_album` /
`resolve_song`: fold over the entries, scoring the canonical name first and
then each alias, keeping the strictly best score seen so far (ties keep the
earlier candidate). -/
def fuzzy_best (entries : List KBEntry) (normalized_span : List Char) :
    Option KBEntry × ℚ :=
  entries.foldl (fuzzy_entry_step normalized_span)
    ((none : Option KBEntry), (0 : ℚ))

/-- The resolution pipeline shared verbatim (up to the entry list and log
text) by `resolve_member`, `resolve_album` and `resolve_song`: exact match
on the normalized canonical name, then alias match, then fuzzy match
accepted when the best score reaches 0.6. -/
def resolve_from (entries : List KBEntry) (span : List Char) : Option KBEntry :=
  let normalized_span := normalize_span span
  match entries.find? (fun e => normalize_span e.canonical == normalized_span) with
  | some e => some e
  | none =>
    match entries.find?
        (fun e => e.aliases.any (fun a => normalize_span a == normalized_span)) with
    | some e => some e
    | none =>
      match fuzzy_best entries normalized_span with
      | (some m, s) => if s ≥ mkRat 3 5 then some m else none
      | (none, _) => none

/-- The in-memory state of `KnowledgeResolver`: one record list per entity
kind, loaded at startup. -/
structure KnowledgeResolver where
  members : List KBEntry
  albums : List KBEntry
  songs : List KBEntry
deriving Repr

/-- Embedding of `KnowledgeResolver.resolve_member`. -/
def resolve_member (r : KnowledgeResolver) (span : List Char) : Option KBEntry :=
  resolve_from r.members span

/-- Embedding of `KnowledgeResolver.resolve_album`. -/
def resolve_album (r : KnowledgeResolver) (span : List Char) : Option KBEntry :=
  resolve_from r.albums span

/-- Embedding of `KnowledgeResolver.resolve_song`. -/
def resolve_song (r : KnowledgeResolver) (span : List Char) : Option KBEntry :=
  resolve_from r.songs span

/-! ## Entity dictionaries shared by the processor and the session memory -/

/-- The typed fields of a static-data record (a member of `bandInfo`, or an
album of `discography`) that the pipeline reads.  A raw Python dict is
modelled by the fields the code accesses; `Option` marks keys the code reads
through `.get` with a default. -/
structure Details where
  name : List Char
  memberSince : Option (List Char) := none
  biography : Option (List Char) := none
  releaseDate : Option (List Char) := none
  producer : Option (List Char) := none
  tracks : Option (List (List Char)) := none
deriving DecidableEq, Repr

/-- An entity dict as produced by `ChatbotProcessor._find_entities_in_text`
and consumed by `_detect_ambiguity`, `_generate_basic_response` and
`ConversationMemory._update_context`:

* `etype` is the `"type"` key (`"member"`, `"album"` or `"song"`),
* `value_name` is `entity["value"]["name"]`,
* `value_album` is `entity["value"]["album"]` (songs; `[]` otherwise),
* `details` is the member/album details dict stored under `"value"`
  (for songs, the `"album_details"` entry of the value dict),
* `member_type` / `album_type` are the optional keys of the same names,
* `matched_text` is the `"matched_text"` key. -/
structure PEntity where
  etype : List Char
  value_name : List Char
  value_album : List Char := []
  details : Details
  member_type : Option (List Char) := none
  album_type : Option (List Char) := none
  matched_text : List Char := []
deriving DecidableEq, Repr

/-! ## Session memory (`app/chatbot/memory.py`) -/

/-- One entry of `context["conversation_flow"]`.  The `timestamp` copies the
message timestamp; `confidence` copies `message_entry["confidence"]`, which
can be `None` (the `0.0` default of the `.get` is dead because the key is
always present). -/
structure FlowEntry where
  intent : List Char
  timestamp : Int
  confidence : Option ℚ
  entities_count : Nat
deriving DecidableEq, Repr

/-- The `patterns` counter dict of a session context. -/
structure Patterns where
  member_questions : Nat := 0
  album_questions : Nat := 0
  song_questions : Nat := 0
  follow_up_questions : Nat := 0
  general_questions : Nat := 0
deriving DecidableEq, Repr

/-- A session's `context` dict.  The keys present from `create_session` on
are plain fields; the keys that `_update_context` creates on demand
(`member_types`, `album_types`, `song_albums`, `topic_confidence`,
`patterns`) are `Option`-valued, with `none` meaning the key is absent. -/
structure SessionContext where
  current_topic : Option (List Char) := none
  last_album : Option (List Char) := none
  last_song : Option (List Char) := none
  last_member : Option (List Char) := none
  last_topic : Option (List Char) := none
  mentioned_members : List (List Char) := []
  mentioned_albums : List (List Char) := []
  mentioned_songs : List (List Char) := []
  conversation_flow : List FlowEntry := []
  member_types : Option (List (List Char × List Char)) := none
  album_types : Option (List (List Char × List Char)) := none
  song_albums : Option (List (List Char × List Char)) := none
  topic_confidence : Option ℚ := none
  patterns : Option Patterns := none
deriving DecidableEq, Repr

/-- One entry of a session's `messages` history.  The timestamp models the
`datetime.now().isoformat()` string by the time value itself. -/
structure MessageEntry where
  timestamp : Int
  user_message : List Char
  bot_message : List Char
  intent : Option (List Char)
  confidence : Option ℚ
  entities : List PEntity
deriving DecidableEq, Repr

/-- The `bot_response` dict passed to `add_message`.  Fields read through
`.get` with a default are `Option`-valued so that both the processor's
response dicts and other callers' dicts are covered. -/
structure BotResponse where
  message : Option (List Char) := none
  intent : Option (List Char) := none
  confidence : Option ℚ := none
  entities : Option (List PEntity) := none
deriving DecidableEq, Repr

/-- One session record of `ConversationMemory.sessions`. -/
structure Session where
  created_at : Int
  last_activity : Int
  messages : List MessageEntry
  entities : List PEntity
  context : SessionContext
deriving DecidableEq, Repr

/-- The `ConversationMemory` store: the session dict is an association list
keyed by session id (fresh uuid keys, hence duplicate-free). -/
structure ConversationMemory where
  sessions : List (List Char × Session)
  max_sessions : Nat := 100
  session_timeout_hours : Int := 24
deriving DecidableEq, Repr

/-- The context dict literal of `create_session`. -/
def fresh_context : SessionContext := {}

/-- The session dict literal of `create_session`, at creation time `now`. -/
def fresh_session (now : Int) : Session :=
  { created_at := now, last_activity := now, messages := [], entities := [],
    context := fresh_context }

/-- Embedding of `ConversationMemory._cleanup_old_sessions`: delete every
session whose `last_activity` is strictly older than `now` minus the
timeout. -/
def _cleanup_old_sessions (m : ConversationMemory) (now : Int) :
    List (List Char × Session) :=
  m.sessions.filter (fun p => ¬(p.2.last_activity < now - m.session_timeout_hours))

/-- Embedding of `ConversationMemory.create_session`: sweep expired sessions
first when the store is at capacity, then insert a fresh session under the
freshly drawn uuid `session_id`. -/
def create_session (m : ConversationMemory) (now : Int) (session_id : List Char) :
    ConversationMemory :=
  let m1 :=
    if m.sessions.length ≥ m.max_sessions then
      { m with sessions := _cleanup_old_sessions m now }
    else m
  { m1 with sessions := m1.sessions ++ [(session_id, fresh_session now)] }

/-- The entity loop of `_update_context`: record mentions, `last_*` slots and
the auxiliary type maps, in entity order. -/
def mention_step (c : SessionContext) (e : PEntity) : SessionContext :=
  if e.etype = str "member" then
    let n := e.value_name
    { c with
      mentioned_members := pyset_add c.mentioned_members n,
      last_member := some n,
      member_types :=
        if py_truthy e.member_type then
          some (dict_set (opt_getD c.member_types []) n (opt_getD e.member_type []))
        else c.member_types }
  else if e.etype = str "album" then
    let n := e.value_name
    { c with
      mentioned_albums := pyset_add c.mentioned_albums n,
      last_album := some n,
      album_types :=
        if py_truthy e.album_type then
          some (dict_set (opt_getD c.album_types []) n (opt_getD e.album_type []))
        else c.album_types }
  else if e.etype = str "song" then
    let n := e.value_name
    { c with
      mentioned_songs := pyset_add c.mentioned_songs n,
      last_song := some n,
      song_albums := some (dict_set (opt_getD c.song_albums []) n e.value_album) }
  else c

/-- The full entity loop of `_update_context`. -/
def update_mentions (ctx : SessionContext) (entities : List PEntity) :
    SessionContext :=
  entities.foldl mention_step ctx

/-- Python `intent in l` for an optional intent (where `None` is never in a
string list). -/
def opt_mem (intent : Option (List Char)) (l : List (List Char)) : Prop :=
  match intent with
  | some i => i ∈ l
  | none => False

instance (intent : Option (List Char)) (l : List (List Char)) :
    Decidable (opt_mem intent l) := by
  unfold opt_mem; cases intent <;> infer_instance

/-- The conversation-flow block of `_update_context`: record meaningful
(truthy, non-`unknown`, non-`"None"`) intents, capping the flow list at its
last 10 entries. -/
def flow_step (ctx : SessionContext) (message_entry : MessageEntry) :
    SessionContext :=
  if py_truthy message_entry.intent ∧
      ¬ opt_mem message_entry.intent [str "unknown", str "None"] then
    let flow := ctx.conversation_flow ++
      [{ intent := opt_getD message_entry.intent [],
         timestamp := message_entry.timestamp,
         confidence := message_entry.confidence,
         entities_count := message_entry.entities.length : FlowEntry }]
    { ctx with conversation_flow :=
        if flow.length > 10 then py_slice_last flow 10 else flow }
  else ctx

/-- The current-topic block of `_update_context`: infer the topic from the
intent and the entity types with the fixed topic-to-confidence table, or
decay the existing confidence by the factor 0.8. -/
def topic_step (ctx : SessionContext) (message_entry : MessageEntry) :
    SessionContext :=
  if opt_mem message_entry.intent [str "member.biography", str "band.members"] ∨
      message_entry.entities.any (fun e => e.etype == str "member") then
    { ctx with current_topic := some (str "band_members"),
               last_topic := some (str "band_members"),
               topic_confidence := some (mkRat 9 10) }
  else if opt_mem message_entry.intent [str "album.info"] ∨
      message_entry.entities.any (fun e => e.etype == str "album") then
    { ctx with current_topic := some (str "albums"),
               last_topic := some (str "albums"),
               topic_confidence := some (mkRat 9 10) }
  else if opt_mem message_entry.intent [str "song.info"] ∨
      message_entry.entities.any (fun e => e.etype == str "song") then
    { ctx with current_topic := some (str "songs"),
               last_topic := some (str "songs"),
               topic_confidence := some (mkRat 9 10) }
  else if opt_mem message_entry.intent [str "band.history"] then
    { ctx with current_topic := some (str "band_history"),
               last_topic := some (str "band_history"),
               topic_confidence := some (mkRat 4 5) }
  else if opt_mem message_entry.intent [str "greetings.hello", str "greetings.bye"] then
    { ctx with current_topic := some (str "greetings"),
               last_topic := some (str "greetings"),
               topic_confidence := some (mkRat 7 10) }
  else
    let decayed : ℚ := opt_getD ctx.topic_confidence 0 * mkRat 4 5
    { ctx with topic_confidence := some decayed }

/-- The pattern-counter block of `_update_context`: initialise the counters
on first use, bump the per-category question counter, and detect follow-up
questions via the fixed keyword list on the lowercased user message. -/
def patterns_step (ctx : SessionContext) (message_entry : MessageEntry) :
    SessionContext :=
  let pats := opt_getD ctx.patterns {}
  let pats :=
    if opt_mem message_entry.intent [str "member.biography", str "band.members"] then
      { pats with member_questions := pats.member_questions + 1 }
    else if opt_mem message_entry.intent [str "album.info"] then
      { pats with album_questions := pats.album_questions + 1 }
    else if opt_mem message_entry.intent [str "song.info"] then
      { pats with song_questions := pats.song_questions + 1 }
    else if opt_mem message_entry.intent [str "band.history"] then
      { pats with general_questions := pats.general_questions + 1 }
    else pats
  let user_message := py_lower message_entry.user_message
  let follow_up_indicators :=
    [str "what about", str "how about", str "tell me more", str "and",
     str "also", str "too", str "what else", str "anything else", str "more",
     str "other", str "different", str "in what year", str "when was",
     str "who wrote"]
  let pats :=
    if follow_up_indicators.any (fun ind => py_in ind user_message) then
      { pats with follow_up_questions := pats.follow_up_questions + 1 }
    else pats
  { ctx with patterns := some pats }

/-- Embedding of `ConversationMemory._update_context` as a pure function of
the context and the freshly appended message entry: the entity loop, the
conversation-flow block, the topic block and the pattern block, in source
order. -/
def _update_context (ctx : SessionContext) (message_entry : MessageEntry) :
    SessionContext :=
  patterns_step
    (topic_step
      (flow_step (update_mentions ctx message_entry.entities) message_entry)
      message_entry)
    message_entry

/-- The `message_entry` dict built by `add_message` from the turn data. -/
def message_entry_of (now : Int) (user_message : List Char)
    (bot_response : BotResponse) : MessageEntry :=
  { timestamp := now, user_message := user_message,
    bot_message := opt_getD bot_response.message [],
    intent := bot_response.intent,
    confidence := bot_response.confidence,
    entities := opt_getD bot_response.entities [] }

/-- The per-session body of `add_message` when the session id is present:
touch `last_activity`, append the message entry, update the context, then
truncate the history to the most recent 10 entries. -/
def session_add_message (s : Session) (now : Int) (user_message : List Char)
    (bot_response : BotResponse) : Session :=
  let entry := message_entry_of now user_message bot_response
  let msgs := s.messages ++ [entry]
  let ctx := _update_context s.context entry
  { s with last_activity := now,
           context := ctx,
           messages := if msgs.length > 10 then py_slice_last msgs 10 else msgs }

/-- Embedding of `ConversationMemory.add_message`: a no-op when the session
id is unknown, otherwise the in-place session update above. -/
def add_message (m : ConversationMemory) (now : Int) (session_id : List Char)
    (user_message : List Char) (bot_response : BotResponse) : ConversationMemory :=
  match dict_lookup m.sessions session_id with
  | none => m
  | some _ =>
    { m with sessions :=
        m.sessions.map (fun p =>
          if p.1 == session_id then
            (p.1, session_add_message p.2 now user_message bot_response)
          else p) }

/-- Embedding of `ConversationMemory.get_conversation_history`: `[]` for an
unknown id, otherwise the last `max_messages` entries. -/
def get_conversation_history (m : ConversationMemory) (session_id : List Char)
    (max_messages : Nat) : List MessageEntry :=
  match dict_lookup m.sessions session_id with
  | none => []
  | some s => py_slice_last s.messages max_messages

/-- Embedding of `ConversationMemory.get_context`: `none` models the empty
dict returned for an unknown id; otherwise the (copied) context dict.  The
set-to-list conversion of the source is the identity here because mention
sets are already modelled as lists. -/
def get_context (m : ConversationMemory) (session_id : List Char) :
    Option SessionContext :=
  (dict_lookup m.sessions session_id).map (fun s => s.context)

/-- The follow-up slot record returned by `get_follow_up_context`. -/
structure FollowUpContext where
  last_album : Option (List Char) := none
  last_song : Option (List Char) := none
  last_member : Option (List Char) := none
  last_topic : Option (List Char) := none
deriving DecidableEq, Repr

/-- Embedding of `ConversationMemory.get_follow_up_context`: `none` models
the empty dict returned for an unknown id. -/
def get_follow_up_context (m : ConversationMemory) (session_id : List Char) :
    Option FollowUpContext :=
  (dict_lookup m.sessions session_id).map (fun s =>
    { last_album := s.context.last_album, last_song := s.context.last_song,
      last_member := s.context.last_member, last_topic := s.context.last_topic })

/-- Embedding of `ConversationMemory.is_session_valid`: false for an unknown
id, otherwise `last_activity` must be strictly newer than `now` minus the
timeout. -/
def is_session_valid (m : ConversationMemory) (now : Int) (session_id : List Char) :
    Bool :=
  match dict_lookup m.sessions session_id with
  | none => false
  | some s => s.last_activity > now - m.session_timeout_hours

/-! ## Inference pipeline (`app/core/inference.py`) -/

/-- The enumerated valid-intent set of `apply_confidence_gating` (the
`IntentType` literal of the source, in source order). -/
def valid_intents : List (List Char) :=
  [str "greetings.hello", str "greetings.bye", str "member.biography",
   str "band.members", str "album.info", str "song.info", str "band.history",
   str "intent.outofscope", str "unknown"]

/-- The `CONFIDENCE_THRESHOLD = 0.60` constant local to
`apply_confidence_gating`. -/
def GATING_THRESHOLD : ℚ := mkRat 3 5

/-- Embedding of `apply_confidence_gating`: accept the raw intent when its
confidence reaches the threshold and the label is in the valid-intent set;
map it to `unknown` otherwise; the confidence is passed through unchanged in
every case. -/
def apply_confidence_gating (raw_intent : List Char) (raw_confidence : ℚ) :
    List Char × ℚ :=
  if raw_confidence ≥ GATING_THRESHOLD then
    if raw_intent ∈ valid_intents then (raw_intent, raw_confidence)
    else (str "unknown", raw_confidence)
  else (str "unknown", raw_confidence)

/-- The confidence gate of the inference pipeline as a function of the
ranked classification list: `classify` maps an empty list to
`("unknown", 0.0)` and otherwise forwards the top entry, which
`apply_confidence_gating` then gates (`run_inference` composes the two).
It is a plain function of its input list, mirroring the purity of the
source. -/
def gate_of_classifications (classifications : List (List Char × ℚ)) :
    List Char × ℚ :=
  match classifications with
  | [] => apply_confidence_gating (str "unknown") 0
  | top :: _ => apply_confidence_gating top.1 top.2

/-- The `value` of a raw entity dict as seen by `canonicalize_entities`: a
dict (modelled by the keys the pipeline reads: the optional `"text"` key it
extracts the resolution span from, and the `"name"`/`"album"` keys the
entity extractor fills in) or a non-dict value, which the source stringifies
and is modelled by its string form. -/
inductive RawValue where
  | dict (text : Option (List Char)) (name : Option (List Char))
      (album : Option (List Char))
  | nonDict (s : List Char)
deriving DecidableEq, Repr

/-- A raw entity dict handed to `canonicalize_entities` (type, value, and
the optional `"confidence"` key read through `.get` with default 0.5). -/
structure RawEntity where
  etype : List Char
  value : RawValue
  confidence : Option ℚ := none
deriving DecidableEq, Repr

/-- The `value` of a validated `Entity`: either a resolved knowledge-base
record or the unchanged raw value. -/
inductive CEValue where
  | kb (e : KBEntry)
  | raw (v : RawValue)
deriving DecidableEq, Repr

/-- A validated `Entity` model instance. -/
structure CEntity where
  etype : List Char
  value : CEValue
  confidence : ℚ
deriving DecidableEq, Repr

/-- The loop body of `canonicalize_entities` for one raw entity: skip
invalid types (`none`), extract the span from the `"text"` key (empty when
the key is absent), resolve by kind (`band` has no resolver and keeps
`canonical_entity = None`), and fall back to the unchanged raw value when
resolution fails. -/
def canonicalize_entity (r : KnowledgeResolver) (raw : RawEntity) :
    Option CEntity :=
  if raw.etype ∉ [str "member", str "album", str "song", str "band"] then none
  else
    let span :=
      match raw.value with
      | .dict text _ _ => opt_getD text []
      | .nonDict s => s
    let canonical_entity :=
      if raw.etype = str "member" then resolve_member r span
      else if raw.etype = str "album" then resolve_album r span
      else if raw.etype = str "song" then resolve_song r span
      else none
    match canonical_entity with
    | some kb =>
      some { etype := raw.etype, value := .kb kb,
             confidence := opt_getD raw.confidence (mkRat 1 2) }
    | none =>
      some { etype := raw.etype, value := .raw raw.value,
             confidence := opt_getD raw.confidence (mkRat 1 2) }

/-- Embedding of `canonicalize_entities`: the per-entity step above over the
raw entity list, keeping the produced entities in order. -/
def canonicalize_entities (r : KnowledgeResolver) (raw : List RawEntity) :
    List CEntity :=
  raw.filterMap (canonicalize_entity r)

/-! ## Chatbot processor (`app/chatbot/processor.py`) -/

/-- One entry of `known_members` or `known_albums`: the lowercased name, the
precomputed variation list, the underlying static-data record, and the
`"type"` tag (`"current"`/`"former"` for members, the discography section
name for albums). -/
structure KnownEntity where
  name : List Char
  variations : List (List Char)
  details : Details
  etype : List Char
deriving DecidableEq, Repr

/-- One entry of `known_songs`: the lowercased track name, the variation
list, the (original-case) album name and the album record. -/
structure KnownSong where
  name : List Char
  variations : List (List Char)
  album : List Char
  album_details : Details
deriving DecidableEq, Repr

/-- The `bandInfo` section of the static data (missing keys default to empty
lists exactly as the `.get(..., [])` reads do). -/
structure BandInfo where
  currentMembers : List Details := []
  formerMembers : List Details := []
deriving DecidableEq, Repr

/-- The `discography` section of the static data. -/
structure Discography where
  studioAlbums : List Details := []
  compilationAlbums : List Details := []
  liveAlbums : List Details := []
deriving DecidableEq, Repr

/-- The static data handed to the processor constructor. -/
structure StaticData where
  bandInfo : BandInfo := {}
  discography : Discography := {}
deriving DecidableEq, Repr

/-- One corpus item of the training data (`intent` and its configured
`answers`). -/
structure IntentData where
  intent : List Char
  answers : List (List Char)
deriving DecidableEq, Repr

/-- The two training corpora read by `_generate_basic_response`
(`training_data["base"]["data"]` and `training_data["rhcp"]["data"]`). -/
structure TrainingData where
  base : List IntentData := []
  rhcp : List IntentData := []
deriving DecidableEq, Repr

/-- The base variation list of `_build_member_variations`: the lowercased
name, the apostrophe-stripped and space-stripped forms, and the first and
last whitespace-separated tokens. -/
def member_base_variations (name : List Char) : List (List Char) :=
  [name, py_replace (str "\x27") [] name, py_replace (str " ") [] name,
   (py_split_ws name).headD [], (py_split_ws name).getLastD []]

/-- The nickname table for current members. -/
def current_member_nicknames (name : List Char) : List (List Char) :=
  if py_in (str "flea") name || py_in (str "balzary") name then
    [str "flea", str "michael flea", str "michael balzary", str "balzary",
     str "mike flea"]
  else if py_in (str "anthony") name || py_in (str "kiedis") name then
    [str "anthony", str "kiedis", str "tony", str "anthony kiedis", str "ak"]
  else if py_in (str "john") name || py_in (str "frusciante") name then
    [str "john", str "frusciante", str "johnny", str "john frusciante", str "jf"]
  else if py_in (str "chad") name || py_in (str "smith") name then
    [str "chad", str "smith", str "chad smith", str "chadwick"]
  else []

/-- The nickname table for former members. -/
def former_member_nicknames (name : List Char) : List (List Char) :=
  if py_in (str "hillel") name || py_in (str "slovak") name then
    [str "hillel", str "slovak", str "hillel slovak"]
  else if py_in (str "jack") name || py_in (str "irons") name then
    [str "jack", str "irons", str "jack irons"]
  else if py_in (str "josh") name || py_in (str "klinghoffer") name then
    [str "josh", str "klinghoffer", str "josh klinghoffer", str "jk"]
  else if py_in (str "dave") name || py_in (str "navarro") name then
    [str "dave", str "navarro", str "dave navarro", str "dn"]
  else []

/-- Embedding of `ChatbotProcessor._build_member_variations`. -/
def _build_member_variations (sd : StaticData) : List KnownEntity :=
  sd.bandInfo.currentMembers.map (fun member =>
    let name := py_lower member.name
    { name := name,
      variations := member_base_variations name ++ current_member_nicknames name,
      details := member, etype := str "current" })
  ++ sd.bandInfo.formerMembers.map (fun member =>
    let name := py_lower member.name
    { name := name,
      variations := member_base_variations name ++ former_member_nicknames name,
      details := member, etype := str "former" })

/-- The base variation list of `_build_album_variations` and
`_build_song_variations`: the lowercased name, the apostrophe-stripped and
space-stripped forms, and the `&`-to-`and` form. -/
def album_base_variations (name : List Char) : List (List Char) :=
  [name, py_replace (str "\x27") [] name, py_replace (str " ") [] name,
   py_replace (str "&") (str "and") name]

/-- The abbreviation table of `_build_album_variations`. -/
def album_extra_variations (name : List Char) : List (List Char) :=
  if py_in (str "blood sugar sex magik") name then
    [str "blood sugar", str "bssm", str "blood sugar sex magic"]
  else if py_in (str "californication") name then
    [str "cali", str "californication"]
  else if py_in (str "by the way") name then
    [str "btw", str "by the way"]
  else if py_in (str "stadium arcadium") name then
    [str "stadium", str "arcadium", str "sa"]
  else if py_in (str "unlimited love") name then
    [str "unlimited", str "ul"]
  else if py_in (str "the getaway") name then
    [str "getaway", str "tg"]
  else if py_in (str "i\x27m with you") name then
    [str "im with you", str "iwy"]
  else if py_in (str "one hot minute") name then
    [str "ohm", str "one hot minute"]
  else if py_in (str "mother\x27s milk") name then
    [str "mothers milk", str "mother milk", str "mm"]
  else if py_in (str "uplift mofo party plan") name then
    [str "uplift", str "mofo", str "umpp"]
  else if py_in (str "freaky styley") name then
    [str "freaky", str "styley", str "fs"]
  else if py_in (str "the red hot chili peppers") name then
    [str "debut", str "first album", str "rhcp debut"]
  else []

/-- Embedding of `ChatbotProcessor._build_album_variations`; the three
discography sections are processed in source order, each tagged with its
section name. -/
def _build_album_variations (sd : StaticData) : List KnownEntity :=
  let build : List Char → List Details → List KnownEntity :=
    fun album_type l => l.map (fun album =>
      let name := py_lower album.name
      { name := name,
        variations := album_base_variations name ++ album_extra_variations name,
        details := album, etype := album_type })
  build (str "studioAlbums") sd.discography.studioAlbums
  ++ build (str "compilationAlbums") sd.discography.compilationAlbums
  ++ build (str "liveAlbums") sd.discography.liveAlbums

/-- The abbreviation table of `_build_song_variations`. -/
def song_extra_variations (name : List Char) : List (List Char) :=
  if py_in (str "under the bridge") name then [str "utb", str "under bridge"]
  else if py_in (str "californication") name then [str "cali"]
  else if py_in (str "scar tissue") name then [str "scar"]
  else if py_in (str "otherside") name then [str "other side"]
  else if py_in (str "by the way") name then [str "btw"]
  else if py_in (str "dani california") name then [str "dani", str "dani cali"]
  else if py_in (str "snow (hey oh)") name then
    [str "snow", str "hey oh", str "snow hey oh"]
  else if py_in (str "give it away") name then [str "give away", str "gia"]
  else if py_in (str "breaking the girl") name then
    [str "breaking girl", str "btg"]
  else if py_in (str "suck my kiss") name then [str "smk"]
  else if py_in (str "around the world") name then [str "atw"]
  else if py_in (str "parallel universe") name then [str "parallel", str "pu"]
  else if py_in (str "get on top") name then [str "got"]
  else if py_in (str "easily") name then [str "easy"]
  else if py_in (str "porcelain") name then [str "porc"]
  else if py_in (str "emit remmus") name then [str "emit", str "remmus"]
  else if py_in (str "i like dirt") name then [str "dirt"]
  else if py_in (str "this velvet glove") name then [str "velvet glove", str "tvg"]
  else if py_in (str "savior") name then [str "save"]
  else if py_in (str "purple stain") name then [str "purple", str "stain"]
  else if py_in (str "right on time") name then [str "rot"]
  else if py_in (str "road trippin") name then [str "road trip", str "rt"]
  else if py_in (str "black summer") name then [str "black", str "summer", str "bs"]
  else if py_in (str "here ever after") name then [str "here after", str "hea"]
  else if py_in (str "aquatic mouth dance") name then
    [str "aquatic", str "mouth dance", str "amd"]
  else if py_in (str "not the one") name then [str "nto"]
  else if py_in (str "poster child") name then [str "poster", str "child", str "pc"]
  else if py_in (str "the great apes") name then [str "great apes", str "tga"]
  else if py_in (str "it\x27s only natural") name then
    [str "its only natural", str "ion", str "natural"]
  else if py_in (str "she\x27s a lover") name then
    [str "shes a lover", str "sal", str "lover"]
  else if py_in (str "these are the ways") name then
    [str "these ways", str "tatw", str "ways"]
  else if py_in (str "whatchu thinkin") name then
    [str "whatchu", str "thinkin", str "wt"]
  else if py_in (str "bastards of light") name then
    [str "bastards", str "light", str "bol"]
  else if py_in (str "white braids & pillow chair") name then
    [str "white braids", str "pillow chair", str "wbp", str "braids", str "pillow"]
  else []

/-- Embedding of `ChatbotProcessor._build_song_variations`: one entry per
track of every album of the three discography sections, skipping albums
without a `tracks` list. -/
def _build_song_variations (sd : StaticData) : List KnownSong :=
  let build : List Details → List KnownSong :=
    fun l => l.flatMap (fun album =>
      match album.tracks with
      | some ts =>
        ts.map (fun track =>
          let name := py_lower track
          { name := name,
            variations := album_base_variations name ++ song_extra_variations name,
            album := album.name, album_details := album })
      | none => [])
  build sd.discography.studioAlbums
  ++ build sd.discography.compilationAlbums
  ++ build sd.discography.liveAlbums

/-- The processor state.  The trained scikit-learn classifier
(`predict_proba` zipped with `classes_`) and `random.choice` are external
effects, modelled as function-valued fields (`classifier`, `choose`); the
mutable `memory_manager` reference is threaded as an explicit argument to
the operations instead of being stored. -/
structure ChatbotProcessor where
  classifier : List Char → List (List Char × ℚ)
  training_data : TrainingData
  static_data : StaticData
  known_members : List KnownEntity
  known_albums : List KnownEntity
  known_songs : List KnownSong
  choose : List (List Char) → List Char

/-- Embedding of `ChatbotProcessor.__init__`: precompute the three known
entity lists from the static data. -/
def mk_processor (classifier : List Char → List (List Char × ℚ))
    (training_data : TrainingData) (static_data : StaticData)
    (choose : List (List Char) → List Char) : ChatbotProcessor :=
  { classifier := classifier, training_data := training_data,
    static_data := static_data,
    known_members := _build_member_variations static_data,
    known_albums := _build_album_variations static_data,
    known_songs := _build_song_variations static_data,
    choose := choose }

/-- The module-level `CONFIDENCE_THRESHOLD = 0.05` of `processor.py`. -/
def CONFIDENCE_THRESHOLD : ℚ := mkRat 1 20

/-- Whether `re.search(r"\b" + re.escape(v) + r"\b", text)` matches at start
position `i`: the literal `v` occurs at `i`, and both `\b` assertions hold
(`\b` matches where exactly one of the two adjacent characters is a `\w`
character, positions outside the text counting as non-word). -/
def word_boundary_at (v text : List Char) (i : Nat) : Bool :=
  v.isPrefixOf (text.drop i) &&
  ((decide (0 < i) && word_char (text.getD (i - 1) ' ')) != word_char (v.headD ' ')) &&
  (word_char (v.getLastD ' ') !=
    (decide (i + v.length < text.length) && word_char (text.getD (i + v.length) ' ')))

/-- Whether the word-boundary-anchored search for `v` succeeds anywhere in
`text`. -/
def word_boundary_search (v text : List Char) : Bool :=
  (List.range (text.length + 1)).any (fun i => word_boundary_at v text i)

/-- The per-variation test of `_find_entities_in_text`: plain containment
(`variation in text`) followed by the word-boundary-anchored regex search. -/
def variation_matches (text v : List Char) : Bool :=
  py_in v text && word_boundary_search v text

/-- Embedding of `ChatbotProcessor._find_entities_in_text`: members, then
albums, then songs; for each known entity the first matching variation wins
and scanning of that entity stops. -/
def _find_entities_in_text (p : ChatbotProcessor) (text : List Char) :
    List PEntity :=
  p.known_members.filterMap (fun mi =>
    (mi.variations.find? (variation_matches text)).map (fun v =>
      { etype := str "member", value_name := mi.details.name,
        details := mi.details, member_type := some mi.etype,
        matched_text := v }))
  ++ p.known_albums.filterMap (fun ai =>
    (ai.variations.find? (variation_matches text)).map (fun v =>
      { etype := str "album", value_name := ai.details.name,
        details := ai.details, album_type := some ai.etype,
        matched_text := v }))
  ++ p.known_songs.filterMap (fun si =>
    (si.variations.find? (variation_matches text)).map (fun v =>
      { etype := str "song", value_name := si.name, value_album := si.album,
        details := si.album_details, matched_text := v }))

/-- Embedding of `ChatbotProcessor._enhance_message_with_context`: rewrite
elliptical follow-up messages using the session's follow-up slots.  The
three rewrite blocks run in sequence on the original lowercased message, a
later block overwriting the result of an earlier one. -/
def _enhance_message_with_context (mem : Option ConversationMemory)
    (message : List Char) (session_id : Option (List Char)) : List Char :=
  match mem with
  | none => message
  | some m =>
    if ¬ py_truthy session_id then message
    else
      match get_follow_up_context m (opt_getD session_id []) with
      | none => message
      | some context =>
        let lower := py_lower message
        let e1 :=
          if py_in (str "in what year") lower || py_in (str "when was") lower then
            if py_truthy context.last_album then
              str "what year was " ++ opt_getD context.last_album [] ++ str " released"
            else if py_truthy context.last_song then
              str "what year was " ++ opt_getD context.last_song [] ++ str " released"
            else message
          else message
        let e2 :=
          if py_in (str "who wrote") lower &&
              ¬ ([str "album", str "song", str "track"].any (fun w => py_in w lower)) then
            if py_truthy context.last_song then
              str "who wrote " ++ opt_getD context.last_song []
            else if py_truthy context.last_album then
              str "who wrote songs on " ++ opt_getD context.last_album []
            else e1
          else e1
        let e3 :=
          if py_in (str "tell me more about") lower || py_in (str "what about") lower then
            if py_truthy context.last_member then
              str "tell me about " ++ opt_getD context.last_member []
            else if py_truthy context.last_album then
              str "tell me about " ++ opt_getD context.last_album []
            else if py_truthy context.last_song then
              str "tell me about " ++ opt_getD context.last_song []
            else e2
          else e2
        e3

/-- Embedding of `ChatbotProcessor._is_follow_up_question`. -/
def _is_follow_up_question (message : List Char) : Bool :=
  [str "in what year", str "when was", str "who wrote", str "tell me more",
   str "what about", str "how about", str "and", str "also", str "too"].any
    (fun ind => py_in ind (py_lower message))

/-- One record of the `"entities"` list built by `_detect_ambiguity`. -/
structure AmbigEntity where
  name : List Char
  etype : List Char
  original_type : List Char
deriving DecidableEq, Repr

/-- The ambiguous-entity collection of `_detect_ambiguity`: song/album
entities whose lowercased name occurs among both the known songs and the
known albums, in entity order. -/
def ambiguous_entities (p : ChatbotProcessor) (entities : List PEntity) :
    List AmbigEntity :=
  entities.filterMap (fun e =>
    if e.etype = str "song" ∨ e.etype = str "album" then
      let entity_name := py_lower e.value_name
      if p.known_songs.any (fun s => py_lower s.name == entity_name) ∧
          p.known_albums.any (fun a => py_lower a.name == entity_name) then
        some { name := e.value_name, etype := e.etype, original_type := e.etype }
      else none
    else none)

/-- Embedding of `ChatbotProcessor._detect_ambiguity`: `none` exactly when
the collection above is empty, mirroring `return None` versus the
`{"ambiguous": True, "entities": [...]}` dict. -/
def _detect_ambiguity (p : ChatbotProcessor) (entities : List PEntity) :
    Option (List AmbigEntity) :=
  let l := ambiguous_entities p entities
  if l = [] then none else some l

/-- Python `release_date.split("-")[0] if "-" in release_date else
release_date`. -/
def year_of (release_date : List Char) : List Char :=
  if py_in (str "-") release_date then release_date.takeWhile (fun c => c ≠ '-')
  else release_date

/-- The basic (context-free) response generator; embedding of the
member-biography branch body of `_generate_basic_response`. -/
def member_bio_response (member : Details) : List Char :=
  let name := member.name
  let member_since := opt_getD member.memberSince (str "unknown year")
  if py_lower name ∈ [str "anthony kiedis", str "anthony", str "kiedis"] then
    str "Anthony Kiedis is the lead vocalist and primary lyricist of RHCP. He\x27s been with the band since "
    ++ member_since ++
    str " and is known for his unique vocal style and energetic stage presence. He\x27s also written a memoir called \x27Scar Tissue\x27 about his life and struggles."
  else if py_lower name ∈ [str "flea", str "michael flea", str "michael balzary"] then
    str "Flea (Michael Balzary) is the bassist and co-founding member of RHCP. He\x27s been with the band since "
    ++ member_since ++
    str " and is known for his distinctive funky bass lines, energetic performances, and his work as an actor. He\x27s considered one of the most influential bassists in rock music."
  else if py_lower name ∈ [str "john frusciante", str "john", str "frusciante"] then
    str "John Frusciante is the guitarist of RHCP. He first joined in 1988, left in 1992, returned in 1998, left again in 2009, and rejoined in 2019. He\x27s known for his unique guitar style, melodic solos, and contributions to albums like \x27Blood Sugar Sex Magik\x27 and \x27Californication\x27."
  else if py_lower name ∈ [str "chad smith", str "chad", str "smith"] then
    str "Chad Smith is the drummer of RHCP, joining in " ++ member_since ++
    str ". He\x27s known for his powerful drumming style, technical proficiency, and his work with other bands like Chickenfoot. He\x27s been a consistent member and has played on most of their albums."
  else
    opt_getD member.biography
      (str "I know about " ++ name ++ str ", but I don\x27t have a detailed biography.")

/-- Embedding of the album-specific branch body of
`_generate_basic_response`. -/
def album_specific_response (album : Details) : List Char :=
  let album_name := album.name
  let release_date := opt_getD album.releaseDate (str "unknown date")
  let producer := opt_getD album.producer (str "unknown producer")
  let head := str "\x27" ++ album_name ++ str "\x27 was released on " ++
    release_date ++ str " and produced by " ++ producer
  if py_lower album_name ∈ [str "blood sugar sex magik", str "blood sugar"] then
    head ++ str ". This album was a breakthrough for RHCP, featuring hits like \x27Under the Bridge\x27 and \x27Give It Away\x27. It\x27s considered one of their most influential albums and helped define the alternative rock sound of the 1990s."
  else if py_lower album_name ∈ [str "californication"] then
    head ++ str ". This album marked a return to form for the band and includes hits like \x27Scar Tissue\x27, \x27Otherside\x27, and \x27Californication\x27. It\x27s one of their most successful albums commercially."
  else if py_lower album_name ∈ [str "by the way"] then
    head ++ str ". This album shows a more melodic side of RHCP with hits like \x27By the Way\x27 and \x27Can\x27t Stop\x27. It\x27s known for its more polished sound compared to their earlier work."
  else if py_lower album_name ∈ [str "stadium arcadium"] then
    head ++ str ". This double album won the Grammy for Best Rock Album and includes hits like \x27Dani California\x27 and \x27Snow (Hey Oh)\x27. It\x27s one of their most ambitious projects."
  else if py_lower album_name ∈ [str "unlimited love"] then
    head ++ str ". This is their latest album and marks the return of John Frusciante to the band. It includes the hit single \x27Black Summer\x27 and shows the band returning to their classic sound."
  else
    match album.tracks with
    | some ts =>
      if ts ≠ [] then
        head ++ str ". It includes tracks like " ++ py_join (str ", ") (ts.take 5)
        ++ (if ts.length > 5 then str "..." else []) ++ str "."
      else head
    | none => head

/-- Embedding of the song-specific branch body of
`_generate_basic_response`. -/
def song_specific_response (song_name album_name : List Char) : List Char :=
  let head := str "\x27" ++ song_name ++ str "\x27 is from the album \x27" ++
    album_name ++ str "\x27. "
  if py_lower song_name ∈ [str "under the bridge"] then
    head ++ str "It\x27s one of RHCP\x27s most iconic songs, written by Anthony Kiedis about his feelings of isolation in Los Angeles. The song features a beautiful melody and is considered one of their signature tracks."
  else if py_lower song_name ∈ [str "californication"] then
    head ++ str "This song critiques the artificial nature of Hollywood and California culture. It features John Frusciante\x27s distinctive guitar work and is one of their most recognizable songs."
  else if py_lower song_name ∈ [str "scar tissue"] then
    head ++ str "This song deals with themes of addiction and recovery, reflecting Anthony Kiedis\x27s personal struggles. It won a Grammy for Best Rock Song."
  else if py_lower song_name ∈ [str "otherside"] then
    head ++ str "This song addresses the theme of drug addiction and the struggle to overcome it. It features a memorable bass line from Flea and emotional vocals from Kiedis."
  else if py_lower song_name ∈ [str "by the way"] then
    head ++ str "This song shows a more melodic side of RHCP with its catchy chorus and harmonies. It was a major hit and helped define their sound in the 2000s."
  else
    head ++ str "It\x27s a great track that showcases the band\x27s unique style and musical chemistry."

/-- Embedding of `ChatbotProcessor._generate_basic_response`.  The `branch`
option models the `handled` flag together with the message the handled
branch produced; the corpus lookup and the two fallback messages follow the
source's post-processing of `response_message`. -/
def _generate_basic_response (p : ChatbotProcessor) (intent : List Char)
    (entities : List PEntity) : List Char :=
  let member_entity := entities.find? (fun e => e.etype == str "member")
  let album_entity := entities.find? (fun e => e.etype == str "album")
  let song_entity := entities.find? (fun e => e.etype == str "song")
  let branch : Option (List Char) :=
    if intent = str "unrecognized" ∨ intent = str "None" then
      some (str "I\x27m not sure I understood that. Could you try asking about the band members, albums, songs, or band history?")
    else if intent = str "member.biography" then
      (member_entity.map (fun me => member_bio_response me.details))
    else if intent = str "album.specific" then
      (album_entity.map (fun ae => album_specific_response ae.details))
    else if intent = str "song.specific" ∨ intent = str "song.lyrics" then
      (song_entity.map (fun se => song_specific_response se.value_name se.value_album))
    else none
  let response_message : List Char :=
    match branch with
    | some msg => msg
    | none =>
      if intent ≠ str "unrecognized" ∧ intent ≠ str "None" then
        let pick := fun (corpus : List IntentData) =>
          match corpus.find? (fun item => item.intent == intent) with
          | some item =>
            if item.answers ≠ [] then some (p.choose item.answers) else none
          | none => none
        let picked : List Char :=
          match pick p.training_data.base with
          | some msg => msg
          | none =>
            match pick p.training_data.rhcp with
            | some msg => msg
            | none => []
        if picked = [] then
          str "I understood your intent is \x27" ++ intent ++
          str "\x27, but I don\x27t have a specific response for that yet."
        else picked
      else []
  if response_message = [] then
    str "Sorry, I couldn\x27t process your request. Try asking about band members, albums, songs, or band history!"
  else response_message

/-- Embedding of `ChatbotProcessor._handle_follow_up_question`.  The nested
Python loops return at the first knowledge-base hit and fall through to the
following block otherwise; each block is rendered as the equivalent
first-hit search. -/
def _handle_follow_up_question (p : ChatbotProcessor) (message intent : List Char)
    (entities : List PEntity) (context : FollowUpContext)
    (_history : List MessageEntry) : List Char :=
  let message_lower := py_lower message
  let year_question :=
    py_in (str "in what year") message_lower || py_in (str "when was") message_lower
  if year_question && py_truthy context.last_album then
    let a := opt_getD context.last_album []
    match p.known_albums.find? (fun album =>
        py_lower album.name == py_lower a && py_truthy album.details.releaseDate) with
    | some album =>
      a ++ str " was released in " ++ year_of (opt_getD album.details.releaseDate [])
      ++ str "."
    | none => str "I don\x27t have the release year for " ++ a ++ str "."
  else if year_question && py_truthy context.last_song then
    let s := opt_getD context.last_song []
    match (p.known_songs.filterMap (fun song =>
        if py_lower song.name == py_lower s && song.album ≠ [] then
          (p.known_albums.find? (fun album =>
            py_lower album.name == py_lower song.album &&
            py_truthy album.details.releaseDate)).map (fun album => (song, album))
        else none)).head? with
    | some (song, album) =>
      s ++ str " was released in " ++ year_of (opt_getD album.details.releaseDate [])
      ++ str " on the album " ++ song.album ++ str "."
    | none => str "I don\x27t have the release year for " ++ s ++ str "."
  else if py_in (str "who wrote") message_lower && py_truthy context.last_song then
    let s := opt_getD context.last_song []
    match p.known_songs.find? (fun song => py_lower song.name == py_lower s) with
    | some _ =>
      -- known_songs entries carry no "details" key, so `song.get("details", {})`
      -- is always the empty dict and the writers list is always empty
      let writers : List (List Char) := []
      if writers ≠ [] then
        s ++ str " was written by " ++ py_join (str ", ") writers ++ str "."
      else str "I don\x27t have writer information for " ++ s ++ str "."
    | none => _generate_basic_response p intent entities
  else _generate_basic_response p intent entities

/-- Embedding of `ChatbotProcessor._generate_contextual_response`: ambiguity
short-circuit first, then follow-up handling when a session with history is
available, then the basic response. -/
def _generate_contextual_response (p : ChatbotProcessor)
    (mem : Option ConversationMemory) (message intent : List Char)
    (entities : List PEntity) (session_id : Option (List Char)) : List Char :=
  match ambiguous_entities p entities with
  | a :: _ => str "Do you mean the song or the album \x27" ++ a.name ++ str "\x27?"
  | [] =>
    match mem with
    | some m =>
      if _is_follow_up_question message && py_truthy session_id then
        let sid := opt_getD session_id []
        let context := opt_getD (get_follow_up_context m sid) {}
        let history := get_conversation_history m sid 3
        if history ≠ [] then
          _handle_follow_up_question p message intent entities context history
        else _generate_basic_response p intent entities
      else _generate_basic_response p intent entities
    | none => _generate_basic_response p intent entities

/-- Stable insertion of a classification into a list already sorted by
descending probability (ties keep earlier elements first). -/
def insert_desc (x : List Char × ℚ) : List (List Char × ℚ) → List (List Char × ℚ)
  | [] => [x]
  | y :: ys => if x.2 > y.2 then x :: y :: ys else y :: insert_desc x ys

/-- Stable sort by descending probability; extensionally
`sorted(class_probabilities, key=lambda item: item[1], reverse=True)`. -/
def sort_desc (l : List (List Char × ℚ)) : List (List Char × ℚ) :=
  l.foldl (fun acc x => insert_desc x acc) []

/-- Embedding of `ChatbotProcessor.get_classifications`: score every class
with the external model and sort by descending probability. -/
def get_classifications (p : ChatbotProcessor) (message : List Char) :
    List (List Char × ℚ) :=
  sort_desc (p.classifier message)

/-- The response dict built by `process_message`. -/
structure PResponse where
  message : List Char
  intent : List Char
  confidence : ℚ
  entities : List PEntity
deriving Repr

/-- The response dict of `process_message` viewed as the `bot_response`
argument of `add_message` (all keys present). -/
def response_to_bot_response (r : PResponse) : BotResponse :=
  { message := some r.message, intent := some r.intent,
    confidence := some r.confidence, entities := some r.entities }

/-- The lowercased, context-enhanced message `process_message` classifies
and extracts entities from. -/
def clean_message (mem : Option ConversationMemory) (message : List Char)
    (session_id : Option (List Char)) : List Char :=
  py_lower (_enhance_message_with_context mem message session_id)

/-- Embedding of `ChatbotProcessor.process_message`: context enhancement,
classification, the module-level confidence gate, entity extraction, the two
entity-based intent-override blocks, contextual response generation, and the
final memory update.  Returns the response dict together with the updated
memory. -/
def process_message (p : ChatbotProcessor) (mem : Option ConversationMemory)
    (now : Int) (message : List Char) (session_id : Option (List Char)) :
    PResponse × Option ConversationMemory :=
  let clean := clean_message mem message session_id
  let classifications := get_classifications p clean
  let s0 : List Char × ℚ :=
    match classifications with
    | [] => (str "unknown", 0)
    | top :: _ =>
      if top.2 ≥ CONFIDENCE_THRESHOLD then (top.1, top.2)
      else (str "unknown", top.2)
  let entities := _find_entities_in_text p clean
  let s1 : List Char × ℚ :=
    if entities ≠ [] ∧ s0.2 < CONFIDENCE_THRESHOLD then
      let entity_types := entities.map (fun e => e.etype)
      if str "album" ∈ entity_types then (str "album.info", mkRat 1 2)
      else if str "song" ∈ entity_types then (str "song.info", mkRat 1 2)
      else if str "member" ∈ entity_types then (str "member.biography", mkRat 1 2)
      else s0
    else s0
  let s2 : List Char × ℚ :=
    if entities ≠ [] then
      let entity_types := entities.map (fun e => e.etype)
      let intent_matches_entities :=
        (str "album" ∈ entity_types ∧
          s1.1 ∈ [str "album.specific", str "album.info"]) ∨
        (str "song" ∈ entity_types ∧
          s1.1 ∈ [str "song.specific", str "song.info", str "song.lyrics"]) ∨
        (str "member" ∈ entity_types ∧
          s1.1 ∈ [str "member.biography", str "band.members"])
      if ¬ intent_matches_entities then
        if str "album" ∈ entity_types then (str "album.info", mkRat 1 2)
        else if str "song" ∈ entity_types then (str "song.info", mkRat 1 2)
        else if str "member" ∈ entity_types then (str "member.biography", mkRat 1 2)
        else s1
      else s1
    else s1
  let response_message :=
    _generate_contextual_response p mem message s2.1 entities session_id
  let response : PResponse :=
    { message := response_message, intent := s2.1, confidence := s2.2,
      entities := entities }
  let mem2 :=
    match mem with
    | some m =>
      if py_truthy session_id then
        some (add_message m now (opt_getD session_id []) message
          (response_to_bot_response response))
      else mem
    | none => none
  (response, mem2)

/-- A resolver loaded with the knowledge the repository's resolver tests
use. -/
def ex_resolver : KnowledgeResolver :=
  { members :=
      [{ canonical := str "anthony kiedis",
         aliases := [str "anthony", str "kiedis", str "tony", str "ant", str "ak"],
         name := str "Anthony Kiedis" },
       { canonical := str "john frusciante",
         aliases := [str "john", str "frusciante", str "fruciante", str "johnny",
           str "jf"],
         name := str "John Anthony Frusciante" }],
    albums :=
      [{ canonical := str "californication",
         aliases := [str "cali", str "californication"],
         name := str "Californication" },
       { canonical := str "by the way",
         aliases := [str "btw", str "by the way"],
         name := str "By the Way" }],
    songs :=
      [{ canonical := str "under the bridge",
         aliases := [str "utb", str "bridge"],
         name := str "Under the Bridge" },
       { canonical := str "scar tissue",
         aliases := [str "scar", str "tissue"],
         name := str "Scar Tissue" }] }

/-- The raw entity used as the C9 witness input: an album entity whose value
dict has no `"text"` key. -/
def ex_raw_entity : RawEntity :=
  { etype := str "album",
    value := RawValue.dict none (some (str "Californication")) none }

/-- The Context invariant of the spec's data model: `topic_confidence`
(when the key exists) lies in `[0, 1]`, the mention collections are
duplicate-free, and the conversation-flow list has at most 10 entries. -/
def context_invariant (ctx : SessionContext) : Prop :=
  (∀ q, ctx.topic_confidence = some q → 0 ≤ q ∧ q ≤ 1) ∧
  ctx.mentioned_members.Nodup ∧ ctx.mentioned_albums.Nodup ∧
  ctx.mentioned_songs.Nodup ∧ ctx.conversation_flow.length ≤ 10

/-- Static data for a concrete processor: one studio album whose title is
also a track title, so that the same name is both a known album and a known
song. -/
def ex_static : StaticData :=
  { discography := { studioAlbums := [
      { name := str "Californication", releaseDate := some (str "1999-06-08"),
        producer := some (str "Rick Rubin"),
        tracks := some [str "Californication", str "Scar Tissue"] } ] } }

/-- A concrete classifier stub that reports the top label
`greetings.hello` with probability 0.01 for every message. -/
def ex_classifier : List Char → List (List Char × ℚ) :=
  fun _ => [(str "greetings.hello", mkRat 1 100)]

/-- A concrete processor over `ex_static`, with `random.choice` modelled as
picking the first answer. -/
def ex_processor : ChatbotProcessor :=
  mk_processor ex_classifier {} ex_static (fun l => l.headD [])

/-- A concrete bot-response dict as produced by a processed turn. -/
def ex_bot_response : BotResponse :=
  { message := some (str "hello"), intent := some (str "greetings.hello"),
    confidence := some (mkRat 19 20), entities := some [] }

/-- A concrete store holding one session, created at time 0 and touched once
at time 0; with the default 24-hour timeout it is expired at time 100 but
still present. -/
def ex_memory : ConversationMemory :=
  add_message (create_session { sessions := [] } 0 (str "sid")) 0 (str "sid")
    (str "hi") ex_bot_response

/-- The stored session record of `ex_memory`. -/
def ex_session0 : Session :=
  opt_getD (dict_lookup ex_memory.sessions (str "sid")) (fresh_session 0)

/-- A concrete album entity whose name is both a known album and a known
song of `ex_processor`. -/
def ex_album_entity : PEntity :=
  { etype := str "album", value_name := str "Californication",
    details := { name := str "Californication" },
    album_type := some (str "studioAlbums"),
    matched_text := str "californication" }

example : normalize_span (str "  John   Frusciante  ") = str "john frusciante" := by decide
example : normalize_span (str "(john)") = str "john" := by decide
example : _calculate_similarity (str "anthony") (str "anthony kiedis") = mkRat 4 5 := by decide
example : _calculate_similarity (str "fruciante") (str "frusciante") = mkRat 7 10 := by decide
example : _calculate_similarity (str "anthony") (str "flea") = 0 := by decide

/-! ## Helper lemmas -/

/-- Containment as tested by `py_in` coincides with the infix relation. -/
theorem py_in_eq_true_iff {a b : List Char} : py_in a b = true ↔ a <:+: b := by
  unfold py_in
  rw [List.any_eq_true]
  constructor
  · rintro ⟨i, _, hpre⟩
    exact ((List.isPrefixOf_iff_prefix.mp hpre).isInfix).trans
      (List.drop_suffix i b).isInfix
  · rintro ⟨u, v, huv⟩
    refine ⟨u.length, List.mem_range.mpr ?_, ?_⟩
    · have := congrArg List.length huv
      simp only [List.length_append] at this
      omega
    · rw [← huv, List.append_assoc, List.drop_left]
      exact List.isPrefixOf_iff_prefix.mpr ⟨v, rfl⟩

/-- Equal-length containment forces equality. -/
theorem py_in_eq_of_length {a b : List Char} (h : py_in a b = true)
    (hl : a.length = b.length) : a = b :=
  (py_in_eq_true_iff.mp h).eq_of_length hl

/-! ## C3: the confidence gate -/

/-- C3.  The confidence gate of the inference pipeline: an empty
classification list yields `("unknown", 0.0)`; otherwise, with `(label, p)`
on top, the result is `(label, p)` when `p ≥ 0.60` and the label is in the
enumerated valid-intent set, and `("unknown", p)` in every other case.  The
gate is a plain (hence pure) function of the classification list. -/
theorem gate_behaviour (cls : List (List Char × ℚ)) :
    (cls = [] → gate_of_classifications cls = (str "unknown", 0)) ∧
    ∀ label p rest, cls = (label, p) :: rest →
      (p ≥ GATING_THRESHOLD ∧ label ∈ valid_intents →
        gate_of_classifications cls = (label, p)) ∧
      (¬ (p ≥ GATING_THRESHOLD ∧ label ∈ valid_intents) →
        gate_of_classifications cls = (str "unknown", p)) := by
  constructor
  · rintro rfl
    decide
  · rintro label p rest rfl
    constructor
    · rintro ⟨h1, h2⟩
      simp only [gate_of_classifications, apply_confidence_gating, if_pos h1,
        if_pos h2]
    · intro h
      by_cases h1 : p ≥ GATING_THRESHOLD
      · have h2 : label ∉ valid_intents := fun hm => h ⟨h1, hm⟩
        simp only [gate_of_classifications, apply_confidence_gating, if_pos h1,
          if_neg h2]
      · simp only [gate_of_classifications, apply_confidence_gating, if_neg h1]

/-- Witness for C3: the gate evaluated on a concrete accepted entry and on
the empty list. -/
theorem gate_behaviour_witness :
    gate_of_classifications [(str "album.info", mkRat 7 10)] =
      (str "album.info", mkRat 7 10) ∧
    gate_of_classifications [] = (str "unknown", 0) :=
  ⟨((gate_behaviour [(str "album.info", mkRat 7 10)]).2 _ _ _ rfl).1
      ⟨by decide, by decide⟩,
   (gate_behaviour []).1 rfl⟩

/-! ## C5: round-trip resolution of canonical names -/

/-- The exact-match pass finds precisely the entry whose canonical name was
asked for, provided the normalized canonical names are pairwise distinct. -/
theorem find?_canonical_self (entries : List KBEntry) (X : KBEntry)
    (hX : X ∈ entries)
    (hnd : (entries.map (fun e => normalize_span e.canonical)).Nodup) :
    entries.find? (fun e => normalize_span e.canonical == normalize_span X.canonical)
      = some X := by
  induction entries with
  | nil => cases hX
  | cons h t ih =>
    simp only [List.map_cons, List.nodup_cons] at hnd
    rcases List.mem_cons.mp hX with rfl | hmem
    · exact List.find?_cons_of_pos _ (by simp)
    · have hne :
          ¬((fun e => normalize_span e.canonical == normalize_span X.canonical) h)
            = true := by
        simp only [beq_iff_eq]
        intro he
        exact hnd.1 (he ▸ List.mem_map_of_mem (fun e => normalize_span e.canonical) hmem)
      rw [List.find?_cons_of_neg t hne]
      exact ih hmem hnd.2

/-- Resolution of an entry's own canonical name hits the exact-match pass
and returns that entry. -/
theorem resolve_from_canonical (entries : List KBEntry) (X : KBEntry)
    (hX : X ∈ entries)
    (hnd : (entries.map (fun e => normalize_span e.canonical)).Nodup) :
    resolve_from entries X.canonical = some X := by
  simp only [resolve_from]
  rw [find?_canonical_self entries X hX hnd]

/-- C5.  Round-trip on exact canonical form: resolving the canonical name of
any knowledge-base entry with the resolver of that entry's kind returns the
entry itself.  The knowledge-base data files are not part of the sources, so
the spec's reading of `canonical` as "the single authoritative name/title
for a knowledge-base record" is carried as the hypothesis that the
normalized canonical names of a kind are pairwise distinct. -/
theorem resolve_canonical_roundtrip (r : KnowledgeResolver) :
    (∀ X ∈ r.members,
      (r.members.map (fun e => normalize_span e.canonical)).Nodup →
      resolve_member r X.canonical = some X) ∧
    (∀ X ∈ r.albums,
      (r.albums.map (fun e => normalize_span e.canonical)).Nodup →
      resolve_album r X.canonical = some X) ∧
    (∀ X ∈ r.songs,
      (r.songs.map (fun e => normalize_span e.canonical)).Nodup →
      resolve_song r X.canonical = some X) :=
  ⟨fun X hX hnd => resolve_from_canonical r.members X hX hnd,
   fun X hX hnd => resolve_from_canonical r.albums X hX hnd,
   fun X hX hnd => resolve_from_canonical r.songs X hX hnd⟩

/-- Witness for C5: the second member of the concrete resolver round-trips
through `resolve_member` on its exact canonical name. -/
theorem resolve_canonical_roundtrip_witness :
    resolve_member ex_resolver (str "john frusciante") =
      some { canonical := str "john frusciante",
             aliases := [str "john", str "frusciante", str "fruciante",
               str "johnny", str "jf"],
             name := str "John Anthony Frusciante" } :=
  (resolve_canonical_roundtrip ex_resolver).1
    { canonical := str "john frusciante",
      aliases := [str "john", str "frusciante", str "fruciante", str "johnny",
        str "jf"],
      name := str "John Anthony Frusciante" }
    (by decide) (by decide)

/-! ## C6: similarity on adjacent transpositions -/

/-- Counterexample for C6 as stated: `"ab"` and `"ba"` are distinct
normalized strings of equal length relatded by one adjacent transposition,
yet the similarity is 0.5, not 0.6 (the transposition scan requires length
at least 3, so the two-substitutions branch fires instead). -/
theorem similarity_transposition_counterexample :
    normalize_span (str "ab") = str "ab" ∧ normalize_span (str "ba") = str "ba" ∧
    str "ab" ≠ str "ba" ∧ (str "ab").length = (str "ba").length ∧
    adjacent_swap_at (str "ab") 0 = str "ba" ∧
    _calculate_similarity (str "ab") (str "ba") = mkRat 1 2 ∧
    _calculate_similarity (str "ab") (str "ba") ≠ mkRat 3 5 := by
  decide

/-- C6 (amended with the length bound the source imposes).  For distinct
normalized strings of equal length at least 3 related by one adjacent
transposition, the similarity is 0.6. -/
theorem similarity_adjacent_transposition (s t : List Char)
    (hs : normalize_span s = s) (ht : normalize_span t = t)
    (hne : s ≠ t) (hlen : s.length = t.length) (h3 : 3 ≤ s.length)
    (hswap : ∃ i, i + 1 < s.length ∧ adjacent_swap_at s i = t) :
    _calculate_similarity s t = mkRat 3 5 := by
  have hsne : s ≠ [] := by
    intro h; rw [h] at h3; simp at h3
  have htne : t ≠ [] := by
    intro h; rw [h] at hlen
    simp only [List.length_nil] at hlen
    omega
  have hin1 : py_in s t = false := by
    cases hp : py_in s t
    · rfl
    · exact absurd (py_in_eq_of_length hp hlen) hne
  have hin2 : py_in t s = false := by
    cases hp : py_in t s
    · rfl
    · exact absurd (py_in_eq_of_length hp hlen.symm).symm hne
  have htr : has_adjacent_transposition s t = true := by
    obtain ⟨i, hi, hswap_eq⟩ := hswap
    unfold has_adjacent_transposition
    rw [List.any_eq_true]
    exact ⟨i, List.mem_range.mpr (by omega), beq_iff_eq.mpr hswap_eq⟩
  simp only [_calculate_similarity, hs, ht]
  rw [if_neg (by simp [hsne, htne]), if_neg hne, if_neg (by simp [hin1, hin2]),
    if_pos ⟨hlen, h3, htr⟩]

/-- Witness for C6 (amended): `"abc"` versus `"bac"`. -/
theorem similarity_adjacent_transposition_witness :
    _calculate_similarity (str "abc") (str "bac") = mkRat 3 5 :=
  similarity_adjacent_transposition (str "abc") (str "bac") (by decide) (by decide)
    (by decide) (by decide) (by decide) ⟨0, by decide, by decide⟩

/-! ## C9: canonicalization of extractor-shaped entities -/

/-- The similarity of the empty span against anything is 0. -/
theorem _calculate_similarity_nil_left (t : List Char) :
    _calculate_similarity [] t = 0 := by
  simp [_calculate_similarity]

/-- The alias pass of the fuzzy fold never improves on score 0 for the empty
span. -/
theorem fuzzy_alias_fold_nil (e : KBEntry) (al : List (List Char)) :
    al.foldl (fuzzy_alias_step e []) ((none : Option KBEntry), (0 : ℚ)) =
      (none, 0) := by
  induction al with
  | nil => rfl
  | cons a t ih =>
    rw [List.foldl_cons]
    have hstep : fuzzy_alias_step e [] ((none : Option KBEntry), (0 : ℚ)) a =
        (none, 0) := by
      simp [fuzzy_alias_step, _calculate_similarity_nil_left]
    rw [hstep]
    exact ih

/-- The fuzzy pass finds nothing for the empty span. -/
theorem fuzzy_best_nil (entries : List KBEntry) :
    fuzzy_best entries [] = (none, 0) := by
  unfold fuzzy_best
  induction entries with
  | nil => rfl
  | cons e t ih =>
    rw [List.foldl_cons]
    have hstep : fuzzy_entry_step [] ((none : Option KBEntry), (0 : ℚ)) e =
        (none, 0) := by
      simp only [fuzzy_entry_step, _calculate_similarity_nil_left, gt_iff_lt,
        lt_self_iff_false, if_false]
      exact fuzzy_alias_fold_nil e e.aliases
    rw [hstep]
    exact ih

/-- Resolution of the empty span misses, provided no canonical name and no
alias normalizes to the empty string. -/
theorem resolve_from_nil_span (entries : List KBEntry)
    (hcan : ∀ e ∈ entries, normalize_span e.canonical ≠ [])
    (hal : ∀ e ∈ entries, ∀ a ∈ e.aliases, normalize_span a ≠ []) :
    resolve_from entries [] = none := by
  simp only [resolve_from]
  have h0 : normalize_span ([] : List Char) = [] := rfl
  rw [h0]
  have h1 : entries.find? (fun e => normalize_span e.canonical == []) = none :=
    List.find?_eq_none.mpr (fun e he => by
      simpa using hcan e he)
  have h2 : entries.find?
      (fun e => e.aliases.any (fun a => normalize_span a == [])) = none :=
    List.find?_eq_none.mpr (fun e he => by
      simp only [List.any_eq_true, beq_iff_eq, not_exists, not_and]
      intro a ha
      exact hal e he a ha)
  rw [h1, h2, fuzzy_best_nil]

/-- C9.  A raw entity whose value is a dict without a `"text"` key — the
shape the entity extractor produces, whose value dicts carry `"name"` and
`"album"` keys instead — yields the empty resolution span, so (provided no
knowledge-base canonical name or alias normalizes to the empty string) the
resolver misses and the entity is emitted with its raw value unchanged and
confidence defaulting to 0.5; canonicalization never replaces such an entity
with a knowledge-base record. -/
theorem canonicalize_no_text_key (r : KnowledgeResolver) (raw : RawEntity)
    (dn da : Option (List Char))
    (hcan : ∀ e ∈ r.members ++ r.albums ++ r.songs, normalize_span e.canonical ≠ [])
    (hal : ∀ e ∈ r.members ++ r.albums ++ r.songs, ∀ a ∈ e.aliases,
      normalize_span a ≠ [])
    (htype : raw.etype ∈ [str "member", str "album", str "song"])
    (hval : raw.value = RawValue.dict none dn da)
    (hconf : raw.confidence = none) :
    canonicalize_entity r raw =
      some { etype := raw.etype, value := CEValue.raw raw.value,
             confidence := mkRat 1 2 } := by
  have hmem_res : resolve_member r [] = none :=
    resolve_from_nil_span r.members
      (fun e he => hcan e (List.mem_append_left _ (List.mem_append_left _ he)))
      (fun e he => hal e (List.mem_append_left _ (List.mem_append_left _ he)))
  have halb_res : resolve_album r [] = none :=
    resolve_from_nil_span r.albums
      (fun e he => hcan e (List.mem_append_left _ (List.mem_append_right _ he)))
      (fun e he => hal e (List.mem_append_left _ (List.mem_append_right _ he)))
  have hsong_res : resolve_song r [] = none :=
    resolve_from_nil_span r.songs
      (fun e he => hcan e (List.mem_append_right _ he))
      (fun e he => hal e (List.mem_append_right _ he))
  simp only [List.mem_cons, List.not_mem_nil, or_false] at htype
  rcases htype with heq | heq | heq <;>
    simp [canonicalize_entity, heq, hval, hconf, hmem_res, halb_res, hsong_res,
      opt_getD]

/-- Witness for C9: the concrete resolver and the extractor-shaped raw album
entity. -/
theorem canonicalize_no_text_key_witness :
    canonicalize_entity ex_resolver ex_raw_entity =
      some { etype := str "album",
             value := CEValue.raw (RawValue.dict none (some (str "Californication")) none),
             confidence := mkRat 1 2 } :=
  canonicalize_no_text_key ex_resolver ex_raw_entity
    (some (str "Californication")) none (by decide) (by decide) (by decide)
    rfl rfl

/-! ## C2: read operations on expired sessions -/

/-- Counterexample for C2 as stated: at time 100 the single session of
`ex_memory` is expired (`100 - 0 > 24`) but still present, and while
`is_session_valid` reports false, `get_conversation_history` returns the
stored non-empty history and `get_context` returns the stored (non-empty)
context rather than empty results. -/
theorem expired_session_reads_counterexample :
    (dict_lookup ex_memory.sessions (str "sid")).map (fun s => s.last_activity) =
      some 0 ∧
    ((100 : Int) - 0 > ex_memory.session_timeout_hours) ∧
    is_session_valid ex_memory 100 (str "sid") = false ∧
    get_conversation_history ex_memory (str "sid") 5 ≠ [] ∧
    get_context ex_memory (str "sid") ≠ none := by
  refine ⟨by decide, by decide, by decide, by decide, by decide⟩

/-- C2 (amended).  Reads never raise, and an unknown session id yields empty
results (`false` validity, empty context dict, empty history); but for an
expired session that is still in the store only `is_session_valid` reports
the expiry: `get_context` and `get_conversation_history` return the stored
context and history unchanged, because they test only membership. -/
theorem read_ops_on_expired_or_unknown (m : ConversationMemory) (now : Int)
    (session_id : List Char) (n : Nat) :
    (∀ s, dict_lookup m.sessions session_id = some s →
      now - s.last_activity > m.session_timeout_hours →
      is_session_valid m now session_id = false ∧
      get_context m session_id = some s.context ∧
      get_conversation_history m session_id n = py_slice_last s.messages n) ∧
    (dict_lookup m.sessions session_id = none →
      is_session_valid m now session_id = false ∧
      get_context m session_id = none ∧
      get_conversation_history m session_id n = []) := by
  constructor
  · intro s hl hexp
    refine ⟨?_, ?_, ?_⟩
    · simp only [is_session_valid, hl, decide_eq_false_iff_not, not_lt]
      omega
    · simp [get_context, hl]
    · simp [get_conversation_history, hl]
  · intro hl
    refine ⟨?_, ?_, ?_⟩ <;>
      simp [is_session_valid, get_context, get_conversation_history, hl]

/-- Witness for C2 (amended), at the concrete expired store. -/
theorem read_ops_on_expired_or_unknown_witness :
    is_session_valid ex_memory 100 (str "sid") = false ∧
    get_context ex_memory (str "sid") = some ex_session0.context ∧
    get_conversation_history ex_memory (str "sid") 5 =
      py_slice_last ex_session0.messages 5 :=
  (read_ops_on_expired_or_unknown ex_memory 100 (str "sid") 5).1 ex_session0
    (by decide) (by decide)

/-! ## C7 and C8: session-context invariant and history bound -/

/-- The last-`n` slice never exceeds `n` elements (for `n ≠ 0`). -/
theorem py_slice_last_length_le {α : Type} (l : List α) (n : Nat) (hn : n ≠ 0) :
    (py_slice_last l n).length ≤ n := by
  simp only [py_slice_last, if_neg hn, List.length_drop]
  omega

/-- Insertion into a modelled Python set keeps it duplicate-free. -/
theorem pyset_add_nodup (s : List (List Char)) (x : List Char) (h : s.Nodup) :
    (pyset_add s x).Nodup := by
  unfold pyset_add
  split_ifs with hx
  · exact h
  · rw [List.nodup_append_comm]
    exact List.nodup_cons.mpr ⟨hx, h⟩

/-- The entity loop body leaves the conversation flow untouched. -/
theorem mention_step_flow (c : SessionContext) (e : PEntity) :
    (mention_step c e).conversation_flow = c.conversation_flow := by
  unfold mention_step
  split_ifs <;> rfl

/-- The entity loop body leaves the topic confidence untouched. -/
theorem mention_step_tc (c : SessionContext) (e : PEntity) :
    (mention_step c e).topic_confidence = c.topic_confidence := by
  unfold mention_step
  split_ifs <;> rfl

/-- The entity loop body keeps the three mention sets duplicate-free. -/
theorem mention_step_nodup (c : SessionContext) (e : PEntity)
    (h : c.mentioned_members.Nodup ∧ c.mentioned_albums.Nodup ∧
      c.mentioned_songs.Nodup) :
    (mention_step c e).mentioned_members.Nodup ∧
    (mention_step c e).mentioned_albums.Nodup ∧
    (mention_step c e).mentioned_songs.Nodup := by
  obtain ⟨hm, ha, hs⟩ := h
  unfold mention_step
  split_ifs <;> refine ⟨?_, ?_, ?_⟩ <;>
    first
      | exact hm
      | exact ha
      | exact hs
      | exact pyset_add_nodup _ _ hm
      | exact pyset_add_nodup _ _ ha
      | exact pyset_add_nodup _ _ hs

/-- The entity loop keeps the mention sets duplicate-free and leaves flow
and topic confidence untouched. -/
theorem update_mentions_props (entities : List PEntity) :
    ∀ c : SessionContext,
      c.mentioned_members.Nodup ∧ c.mentioned_albums.Nodup ∧
        c.mentioned_songs.Nodup →
      ((update_mentions c entities).mentioned_members.Nodup ∧
       (update_mentions c entities).mentioned_albums.Nodup ∧
       (update_mentions c entities).mentioned_songs.Nodup) ∧
      (update_mentions c entities).conversation_flow = c.conversation_flow ∧
      (update_mentions c entities).topic_confidence = c.topic_confidence := by
  induction entities with
  | nil => exact fun c h => ⟨h, rfl, rfl⟩
  | cons e t ih =>
    intro c h
    have h1 := ih (mention_step c e) (mention_step_nodup c e h)
    unfold update_mentions at h1 ⊢
    rw [List.foldl_cons]
    exact ⟨h1.1, h1.2.1.trans (mention_step_flow c e),
      h1.2.2.trans (mention_step_tc c e)⟩

/-- The flow block leaves mentions and topic confidence untouched. -/
theorem flow_step_others (c : SessionContext) (entry : MessageEntry) :
    (flow_step c entry).mentioned_members = c.mentioned_members ∧
    (flow_step c entry).mentioned_albums = c.mentioned_albums ∧
    (flow_step c entry).mentioned_songs = c.mentioned_songs ∧
    (flow_step c entry).topic_confidence = c.topic_confidence := by
  unfold flow_step
  split_ifs <;> exact ⟨rfl, rfl, rfl, rfl⟩

/-- The flow block keeps the conversation flow within 10 entries. -/
theorem flow_step_length (c : SessionContext) (entry : MessageEntry)
    (h : c.conversation_flow.length ≤ 10) :
    (flow_step c entry).conversation_flow.length ≤ 10 := by
  unfold flow_step
  split_ifs with h1
  · dsimp only
    split_ifs with h2
    · exact py_slice_last_length_le _ 10 (by omega)
    · simp only [List.length_append, List.length_cons, List.length_nil] at h2 ⊢
      omega
  · exact h

/-- The topic block leaves mentions and flow untouched. -/
theorem topic_step_others (c : SessionContext) (entry : MessageEntry) :
    (topic_step c entry).mentioned_members = c.mentioned_members ∧
    (topic_step c entry).mentioned_albums = c.mentioned_albums ∧
    (topic_step c entry).mentioned_songs = c.mentioned_songs ∧
    (topic_step c entry).conversation_flow = c.conversation_flow := by
  unfold topic_step
  split_ifs <;> exact ⟨rfl, rfl, rfl, rfl⟩

/-- The possible topic-confidence outcomes of the topic block. -/
theorem topic_step_tc_cases (c : SessionContext) (entry : MessageEntry) :
    (topic_step c entry).topic_confidence = some (mkRat 9 10) ∨
    (topic_step c entry).topic_confidence = some (mkRat 4 5) ∨
    (topic_step c entry).topic_confidence = some (mkRat 7 10) ∨
    (topic_step c entry).topic_confidence =
      some (opt_getD c.topic_confidence 0 * mkRat 4 5) := by
  unfold topic_step
  split_ifs <;> simp

/-- The topic block keeps the topic confidence within `[0, 1]`. -/
theorem topic_step_tc (c : SessionContext) (entry : MessageEntry)
    (h : ∀ q, c.topic_confidence = some q → 0 ≤ q ∧ q ≤ 1) :
    ∀ q, (topic_step c entry).topic_confidence = some q → 0 ≤ q ∧ q ≤ 1 := by
  intro q hq
  rcases topic_step_tc_cases c entry with hc | hc | hc | hc <;> rw [hc] at hq <;>
    rw [Option.some.injEq] at hq <;> subst hq
  · exact ⟨by decide, by decide⟩
  · exact ⟨by decide, by decide⟩
  · exact ⟨by decide, by decide⟩
  · cases hv : c.topic_confidence with
    | none =>
      simp only [opt_getD, zero_mul]
      exact ⟨le_refl 0, by norm_num⟩
    | some v =>
      have hb := h v hv
      simp only [opt_getD]
      constructor
      · exact mul_nonneg hb.1 (by decide)
      · exact mul_le_one₀ hb.2 (by decide) (by decide)

/-- The pattern block touches only the pattern counters. -/
theorem patterns_step_others (c : SessionContext) (entry : MessageEntry) :
    (patterns_step c entry).mentioned_members = c.mentioned_members ∧
    (patterns_step c entry).mentioned_albums = c.mentioned_albums ∧
    (patterns_step c entry).mentioned_songs = c.mentioned_songs ∧
    (patterns_step c entry).conversation_flow = c.conversation_flow ∧
    (patterns_step c entry).topic_confidence = c.topic_confidence :=
  ⟨rfl, rfl, rfl, rfl, rfl⟩

/-- One `_update_context` call preserves the Context invariant. -/
theorem update_context_invariant (ctx : SessionContext) (entry : MessageEntry)
    (h : context_invariant ctx) : context_invariant (_update_context ctx entry) := by
  obtain ⟨htc, hm, ha, hs, hflow⟩ := h
  obtain ⟨⟨hm1, ha1, hs1⟩, hflow1, htc1⟩ :=
    update_mentions_props entry.entities ctx ⟨hm, ha, hs⟩
  set c1 := update_mentions ctx entry.entities
  obtain ⟨hm2, ha2, hs2, htc2⟩ := flow_step_others c1 entry
  have hflow2 : (flow_step c1 entry).conversation_flow.length ≤ 10 :=
    flow_step_length c1 entry (by rw [hflow1]; exact hflow)
  set c2 := flow_step c1 entry
  obtain ⟨hm3, ha3, hs3, hflow3⟩ := topic_step_others c2 entry
  have htc3 : ∀ q, (topic_step c2 entry).topic_confidence = some q →
      0 ≤ q ∧ q ≤ 1 := by
    apply topic_step_tc
    intro q hq
    rw [htc2, htc1] at hq
    exact htc q hq
  set c3 := topic_step c2 entry
  obtain ⟨hm4, ha4, hs4, hflow4, htc4⟩ := patterns_step_others c3 entry
  refine ⟨?_, ?_, ?_, ?_, ?_⟩
  · intro q hq
    rw [show (_update_context ctx entry).topic_confidence =
      (patterns_step c3 entry).topic_confidence from rfl, htc4] at hq
    exact htc3 q hq
  · rw [show (_update_context ctx entry).mentioned_members =
      (patterns_step c3 entry).mentioned_members from rfl, hm4, hm3, hm2]
    exact hm1
  · rw [show (_update_context ctx entry).mentioned_albums =
      (patterns_step c3 entry).mentioned_albums from rfl, ha4, ha3, ha2]
    exact ha1
  · rw [show (_update_context ctx entry).mentioned_songs =
      (patterns_step c3 entry).mentioned_songs from rfl, hs4, hs3, hs2]
    exact hs1
  · rw [show (_update_context ctx entry).conversation_flow =
      (patterns_step c3 entry).conversation_flow from rfl, hflow4, hflow3]
    exact hflow2

/-- The context of a freshly created session satisfies the invariant. -/
theorem fresh_context_invariant : context_invariant fresh_context :=
  ⟨fun _ h => Option.noConfusion h, List.nodup_nil, List.nodup_nil,
   List.nodup_nil, by simp [fresh_context]⟩

/-- C7.  The Context invariant — `topic_confidence ∈ [0, 1]` whenever the
key exists, duplicate-free mention collections, and a conversation-flow list
of at most 10 entries — is preserved by every `add_message` body, and hence
holds after any sequence of `add_message` calls on a session created by
`create_session`. -/
theorem context_invariant_preserved :
    (∀ (s : Session) (now : Int) (user_message : List Char) (bot : BotResponse),
      context_invariant s.context →
      context_invariant (session_add_message s now user_message bot).context) ∧
    (∀ (t0 : Int) (calls : List (Int × List Char × BotResponse)),
      context_invariant
        ((calls.foldl (fun s c => session_add_message s c.1 c.2.1 c.2.2)
          (fresh_session t0)).context)) := by
  have hstep : ∀ (s : Session) (now : Int) (u : List Char) (bot : BotResponse),
      context_invariant s.context →
      context_invariant (session_add_message s now u bot).context :=
    fun s now u bot h => update_context_invariant s.context (message_entry_of now u bot) h
  refine ⟨hstep, ?_⟩
  intro t0 calls
  have aux : ∀ (cs : List (Int × List Char × BotResponse)) (s : Session),
      context_invariant s.context →
      context_invariant
        ((cs.foldl (fun s c => session_add_message s c.1 c.2.1 c.2.2) s).context) := by
    intro cs
    induction cs with
    | nil => exact fun s h => h
    | cons c t ih =>
      intro s h
      rw [List.foldl_cons]
      exact ih _ (hstep s c.1 c.2.1 c.2.2 h)
  exact aux calls (fresh_session t0) fresh_context_invariant

/-- Witness for C7: one concrete `add_message` body on a fresh session. -/
theorem context_invariant_preserved_witness :
    context_invariant
      (session_add_message (fresh_session 0) 1 (str "hello") ex_bot_response).context :=
  context_invariant_preserved.1 (fresh_session 0) 1 (str "hello") ex_bot_response
    fresh_context_invariant

/-- C8.  The message history never exceeds 10 entries: a single
`add_message` body bounds the history by 10 whatever the starting state, and
hence the bound holds after each call of any sequence of calls on a session
created by `create_session`. -/
theorem history_length_bounded :
    (∀ (s : Session) (now : Int) (user_message : List Char) (bot : BotResponse),
      (session_add_message s now user_message bot).messages.length ≤ 10) ∧
    (∀ (t0 : Int) (calls : List (Int × List Char × BotResponse)),
      ((calls.foldl (fun s c => session_add_message s c.1 c.2.1 c.2.2)
        (fresh_session t0)).messages.length ≤ 10)) := by
  have hstep : ∀ (s : Session) (now : Int) (u : List Char) (bot : BotResponse),
      (session_add_message s now u bot).messages.length ≤ 10 := by
    intro s now u bot
    show (if (s.messages ++ [message_entry_of now u bot]).length > 10
      then py_slice_last (s.messages ++ [message_entry_of now u bot]) 10
      else s.messages ++ [message_entry_of now u bot]).length ≤ 10
    split_ifs with h1
    · exact py_slice_last_length_le _ 10 (by omega)
    · omega
  refine ⟨hstep, ?_⟩
  intro t0 calls
  have aux : ∀ (cs : List (Int × List Char × BotResponse)) (s : Session),
      s.messages.length ≤ 10 →
      ((cs.foldl (fun s c => session_add_message s c.1 c.2.1 c.2.2) s).messages.length
        ≤ 10) := by
    intro cs
    induction cs with
    | nil => exact fun s h => h
    | cons c t ih =>
      intro s _
      rw [List.foldl_cons]
      exact ih _ (hstep s c.1 c.2.1 c.2.2)
  exact aux calls (fresh_session t0) (by simp [fresh_session])

/-! ## C10: an expired-but-present session can be reactivated -/

/-- Updating one binding of the session map in place is observed by a lookup
of that key. -/
theorem lookup_map_update {V : Type} (l : List (List Char × V)) (k : List Char)
    (f : V → V) (v : V) (h : dict_lookup l k = some v) :
    dict_lookup (l.map (fun p => if p.1 == k then (p.1, f p.2) else p)) k =
      some (f v) := by
  induction l with
  | nil => simp [dict_lookup] at h
  | cons p t ih =>
    by_cases hk : p.1 = k
    · have hbeq : (p.1 == k) = true := beq_iff_eq.mpr hk
      rw [dict_lookup] at h
      rw [if_pos hk] at h
      rw [Option.some.injEq] at h
      simp only [List.map_cons, if_pos hbeq]
      rw [dict_lookup, if_pos hk, h]
    · have hbeq : ¬((p.1 == k) = true) := by simp [hk]
      rw [dict_lookup, if_neg hk] at h
      simp only [List.map_cons, if_neg hbeq]
      rw [dict_lookup, if_neg hk]
      exact ih h

/-- C10.  `add_message` on an expired-but-present session is not a no-op: it
runs the session body (appending the message entry and truncating to the
last 10), resets `last_activity` to the current time, and the session then
validates again — the created/active/expired/evicted lifecycle is not
one-directional. -/
theorem expired_session_reactivated (m : ConversationMemory) (now : Int)
    (session_id : List Char) (s : Session)
    (hs : dict_lookup m.sessions session_id = some s)
    (_hexp : now - s.last_activity > m.session_timeout_hours)
    (htimeout : 0 < m.session_timeout_hours)
    (user_message : List Char) (bot_response : BotResponse) :
    dict_lookup (add_message m now session_id user_message bot_response).sessions
      session_id = some (session_add_message s now user_message bot_response) ∧
    (session_add_message s now user_message bot_response).last_activity = now ∧
    (session_add_message s now user_message bot_response).messages =
      (if (s.messages ++ [message_entry_of now user_message bot_response]).length > 10
       then py_slice_last
         (s.messages ++ [message_entry_of now user_message bot_response]) 10
       else s.messages ++ [message_entry_of now user_message bot_response]) ∧
    is_session_valid (add_message m now session_id user_message bot_response) now
      session_id = true := by
  have hlook : dict_lookup
      (add_message m now session_id user_message bot_response).sessions
      session_id = some (session_add_message s now user_message bot_response) := by
    simp only [add_message, hs]
    exact lookup_map_update m.sessions session_id
      (fun v => session_add_message v now user_message bot_response) s hs
  have ht : (add_message m now session_id user_message bot_response).session_timeout_hours
      = m.session_timeout_hours := by
    simp [add_message, hs]
  refine ⟨hlook, rfl, rfl, ?_⟩
  simp only [is_session_valid, hlook, decide_eq_true_eq, ht]
  show now > now - m.session_timeout_hours
  omega

/-- Witness for C10: the expired concrete store accepts a new message and is
valid again at the same instant. -/
theorem expired_session_reactivated_witness :
    dict_lookup (add_message ex_memory 100 (str "sid") (str "again")
      ex_bot_response).sessions (str "sid") =
      some (session_add_message ex_session0 100 (str "again") ex_bot_response) ∧
    (session_add_message ex_session0 100 (str "again") ex_bot_response).last_activity
      = 100 ∧
    (session_add_message ex_session0 100 (str "again") ex_bot_response).messages =
      (if (ex_session0.messages ++
          [message_entry_of 100 (str "again") ex_bot_response]).length > 10
       then py_slice_last
         (ex_session0.messages ++ [message_entry_of 100 (str "again") ex_bot_response]) 10
       else ex_session0.messages ++
         [message_entry_of 100 (str "again") ex_bot_response]) ∧
    is_session_valid (add_message ex_memory 100 (str "sid") (str "again")
      ex_bot_response) 100 (str "sid") = true :=
  expired_session_reactivated ex_memory 100 (str "sid") ex_session0 (by decide)
    (by decide) (by decide) (str "again") ex_bot_response

/-! ## C4: ambiguity short-circuit of the contextual response builder -/

/-- C4.  Whenever the entity list contains an entity of type song or album
whose name occurs among both the known songs and the known albums, the
contextual response builder returns exactly the clarifying question for the
first such ambiguous entity, for every intent and every session state,
before any follow-up or template branch is considered. -/
theorem ambiguity_short_circuits (p : ChatbotProcessor)
    (mem : Option ConversationMemory) (message intent : List Char)
    (entities : List PEntity) (session_id : Option (List Char))
    (a : AmbigEntity) (rest : List AmbigEntity)
    (hamb : ambiguous_entities p entities = a :: rest) :
    _generate_contextual_response p mem message intent entities session_id =
      str "Do you mean the song or the album \x27" ++ a.name ++ str "\x27?" := by
  unfold _generate_contextual_response
  rw [hamb]

/-- Witness for C4: the concrete processor, where `Californication` is both
a known song and a known album, on a concrete album entity. -/
theorem ambiguity_short_circuits_witness :
    _generate_contextual_response ex_processor none (str "who wrote californication")
      (str "album.info") [ex_album_entity] none =
      str "Do you mean the song or the album \x27" ++ str "Californication" ++
        str "\x27?" :=
  ambiguity_short_circuits ex_processor none (str "who wrote californication")
    (str "album.info") [ex_album_entity] none
    { name := str "Californication", etype := str "album",
      original_type := str "album" } [] (by decide)

/-! ## C1: low classifier confidence and the response intent -/

/-- Counterexample for C1 as stated: on the concrete processor the
classifier's top probability 0.01 is below the 0.05 threshold, yet because
the extractor finds entities in the message the entity-based override sets
the returned intent to `album.info`, not `unknown`. -/
theorem low_confidence_override_counterexample :
    get_classifications ex_processor (clean_message none (str "californication") none)
      = [(str "greetings.hello", mkRat 1 100)] ∧
    mkRat 1 100 < CONFIDENCE_THRESHOLD ∧
    _find_entities_in_text ex_processor
      (clean_message none (str "californication") none) ≠ [] ∧
    (process_message ex_processor none 0 (str "californication") none).1.intent =
      str "album.info" ∧
    (process_message ex_processor none 0 (str "californication") none).1.intent ≠
      str "unknown" := by
  refine ⟨by decide, by decide, by decide, by decide, by decide⟩

/-- C1 (amended).  If the classifier's top probability on the processed
(cleaned, context-enhanced) message is below the configured threshold and
the entity extractor finds no entities in that message, then the `intent`
field of the response returned by `process_message` is `"unknown"` — with
entities present, the entity-based overrides can replace the intent even
below the threshold. -/
theorem low_confidence_no_entities_unknown (p : ChatbotProcessor)
    (mem : Option ConversationMemory) (now : Int) (message : List Char)
    (session_id : Option (List Char)) (top : List Char × ℚ)
    (rest : List (List Char × ℚ))
    (hcls : get_classifications p (clean_message mem message session_id) =
      top :: rest)
    (hconf : top.2 < CONFIDENCE_THRESHOLD)
    (hent : _find_entities_in_text p (clean_message mem message session_id) = []) :
    (process_message p mem now message session_id).1.intent = str "unknown" := by
  have h1 : ¬ (top.2 ≥ CONFIDENCE_THRESHOLD) := not_le.mpr hconf
  simp only [process_message, hcls, hent, h1, if_false, ne_eq,
    not_true_eq_false, false_and, if_neg, not_false_eq_true]

/-- Witness for C1 (amended): the concrete processor on an entity-free
message with classifier confidence 0.01. -/
theorem low_confidence_no_entities_unknown_witness :
    (process_message ex_processor none 0 (str "zzz") none).1.intent =
      str "unknown" :=
  low_confidence_no_entities_unknown ex_processor none 0 (str "zzz") none
    (str "greetings.hello", mkRat 1 100) [] (by decide) (by decide) (by decide)
